import Mathlib

/-!
Verification of the SreBuddy core pipeline: the rule-based classifier
(`SreTaskParser`), the plan synthesizer (`generateImplementationPlan`), the
template-corpus parser, the lexical template matcher and the prompt composer
(`SrePromptLoader`), and the chat-surface risk formula
(`SreBuddyChatParticipant.assessRisk`).

Strings are modelled as Lean `String`s; the JavaScript string operations used
by the source (`String.prototype.replace` with a string pattern — first
occurrence only; `replace` with a `/g` literal-token regex — every
non-overlapping occurrence, no rescanning of replacements; `split(/\s+/)` with
its leading/trailing empty-token behaviour; `split('\n')`; `trim`;
`includes`; `startsWith`; `toLowerCase`) are embedded as executable functions
over `List Char`.  Regular expressions appearing in the source are
alternations of literal tokens optionally separated by `\s+`; they are
embedded as lists of alternatives over a two-constructor `Piece` type.
Numeric similarity scores are modelled as exact rationals.
-/

/-- JavaScript `\s` on the character set used by the repository. -/
def wsChar (c : Char) : Bool :=
  c = ' ' || c = '\t' || c = '\n' || c = '\r' || c = '\x0b' || c = '\x0c'

/-- JavaScript `\w` (ASCII word character). -/
def wordChar (c : Char) : Bool :=
  c.isAlpha || c.isDigit || c = '_'

/-- `toLowerCase` on the character lists underlying strings. -/
def lowerL (l : List Char) : List Char := l.map Char.toLower

/-- `toLowerCase` on strings (ASCII, as used by the repository). -/
def lowerS (s : String) : String := ⟨lowerL s.data⟩

/-- JavaScript `hay.includes(pat)` on character lists. -/
def containsL (hay pat : List Char) : Bool :=
  pat.isPrefixOf hay ||
    (match hay with
     | [] => false
     | _ :: t => containsL t pat)

/-- JavaScript `hay.includes(pat)` on strings. -/
def containsS (hay pat : String) : Bool := containsL hay.data pat.data

/-- JavaScript `s.replace(pat, rep)` with a string pattern: first occurrence only. -/
def replaceFirstL (pat rep : List Char) : List Char → List Char
  | [] => []
  | c :: t =>
    if pat.isPrefixOf (c :: t) && !pat.isEmpty then rep ++ t.drop (pat.length - 1)
    else c :: replaceFirstL pat rep t

/-- Scanner for `s.replace(/pat/g, rep)`: `skip` counts characters of an
already-emitted match still to be consumed, so matches never overlap and the
inserted replacement text is never rescanned. -/
def replaceAllGo (pat rep : List Char) : Nat → List Char → List Char
  | _, [] => []
  | Nat.succ k, _ :: t => replaceAllGo pat rep k t
  | 0, c :: t =>
    if pat.isPrefixOf (c :: t) && !pat.isEmpty then rep ++ replaceAllGo pat rep (pat.length - 1) t
    else c :: replaceAllGo pat rep 0 t

/-- JavaScript `s.replace(/pat/g, rep)` for a literal pattern: every
non-overlapping occurrence, scanning left to right, never rescanning the
inserted replacement text. -/
def replaceAllL (pat rep : List Char) (l : List Char) : List Char :=
  replaceAllGo pat rep 0 l

/-- `replaceFirstL` on strings. -/
def replaceFirstS (s pat rep : String) : String := ⟨replaceFirstL pat.data rep.data s.data⟩

/-- `replaceAllL` on strings. -/
def replaceAllS (s pat rep : String) : String := ⟨replaceAllL pat.data rep.data s.data⟩

/-- Scanner for JavaScript `s.split(/\s+/)`: `some cur` accumulates the
current token (reversed); `none` is the in-separator state. -/
def splitWsGo : Option (List Char) → List Char → List (List Char)
  | none, [] => [[]]
  | some cur, [] => [cur.reverse]
  | none, c :: t => if wsChar c then splitWsGo none t else splitWsGo (some [c]) t
  | some cur, c :: t =>
    if wsChar c then cur.reverse :: splitWsGo none t else splitWsGo (some (c :: cur)) t

/-- JavaScript `s.split(/\s+/)` (leading/trailing separators contribute empty
tokens, the empty string yields `[""]`). -/
def splitWsL (l : List Char) : List (List Char) := splitWsGo (some []) l

/-- `splitWsL` on strings. -/
def splitWsS (s : String) : List String := (splitWsL s.data).map fun l => ⟨l⟩

/-- Scanner state for the double-escaped `split(/\\s+/)` of
`srePromptLoader.ts`: its separator is a literal backslash followed by a
greedy nonempty run of `s` characters.  `tok cur` accumulates the current
token (reversed); `bs cur` has consumed a backslash that may start a
separator; `sep` is inside the `s` run. -/
inductive BsState
  | tok : List Char → BsState
  | bs : List Char → BsState
  | sep : BsState
deriving DecidableEq

/-- Scanner for the double-escaped `split(/\\s+/)`. -/
def splitBsGo : BsState → List Char → List (List Char)
  | BsState.tok cur, [] => [cur.reverse]
  | BsState.bs cur, [] => [('\\' :: cur).reverse]
  | BsState.sep, [] => [[]]
  | BsState.tok cur, c :: t =>
    if c = '\\' then splitBsGo (BsState.bs cur) t
    else splitBsGo (BsState.tok (c :: cur)) t
  | BsState.bs cur, c :: t =>
    if c = 's' then cur.reverse :: splitBsGo BsState.sep t
    else if c = '\\' then splitBsGo (BsState.bs ('\\' :: cur)) t
    else splitBsGo (BsState.tok (c :: '\\' :: cur)) t
  | BsState.sep, c :: t =>
    if c = 's' then splitBsGo BsState.sep t
    else if c = '\\' then splitBsGo (BsState.bs []) t
    else splitBsGo (BsState.tok [c]) t

/-- The double-escaped `split(/\\s+/)` used by the similarity scorer
(`logger.ts` 294-295): the separator is a literal backslash plus an `s` run,
so ordinary texts with no backslash stay a single token. -/
def splitBsL (l : List Char) : List (List Char) := splitBsGo (BsState.tok []) l

/-- JavaScript `s.split('\n')`. -/
def splitNlL : List Char → List (List Char)
  | [] => [[]]
  | c :: t =>
    if c = '\n' then [] :: splitNlL t
    else
      match splitNlL t with
      | [] => [[c]]
      | h :: r => (c :: h) :: r

/-- `splitNlL` on strings. -/
def splitNlS (s : String) : List String := (splitNlL s.data).map fun l => ⟨l⟩

/-- JavaScript `s.trim()` on character lists. -/
def trimL (l : List Char) : List Char :=
  ((l.dropWhile wsChar).reverse.dropWhile wsChar).reverse

/-- `trimL` on strings. -/
def trimS (s : String) : String := ⟨trimL s.data⟩

/-- JavaScript `a.startsWith(b)`. -/
def startsWithS (s pat : String) : Bool := pat.data.isPrefixOf s.data

/-- One token of an embedded regular expression: a literal character sequence
or a `\s+` whitespace run. -/
inductive Piece
  | lit : List Char → Piece
  | wsp : Piece
deriving DecidableEq

/-- Literal regex piece built from a string. -/
def lit (s : String) : Piece := Piece.lit s.data

/-- The `\s+` regex piece. -/
def wsp : Piece := Piece.wsp

/-- Fuelled matcher for a sequence of regex pieces at the head of `l` (the
tail of `l` may be arbitrary, as in an unanchored JavaScript regex).  Every
step consumes a piece or a character, so any fuel above their combined count
is exact. -/
def matchSeqF : Nat → List Piece → List Char → Bool
  | _, [], _ => true
  | 0, _ :: _, _ => false
  | Nat.succ fuel, Piece.lit a :: ps, l => a.isPrefixOf l && matchSeqF fuel ps (l.drop a.length)
  | Nat.succ fuel, Piece.wsp :: ps, l =>
    match l with
    | [] => false
    | c :: t => wsChar c && (matchSeqF fuel ps t || matchSeqF fuel (Piece.wsp :: ps) t)

/-- Match a sequence of regex pieces at the head of `l`. -/
def matchSeq (ps : List Piece) (l : List Char) : Bool :=
  matchSeqF (ps.length + l.length + 1) ps l

/-- Match a sequence of regex pieces somewhere in `l` (JavaScript `test`). -/
def matchAnywhere (ps : List Piece) : List Char → Bool
  | [] => matchSeq ps []
  | c :: t => matchSeq ps (c :: t) || matchAnywhere ps t

/-- An embedded regular expression: an ordered alternation of piece sequences. -/
abbrev RPat := List (List Piece)

/-- JavaScript `pat.test(s)` for the embedded regex shape. -/
def testPat (p : RPat) (s : String) : Bool :=
  p.any fun alt => matchAnywhere alt s.data

/-- The closed task-type enumeration of `sreTaskParser.ts` (`SreTaskType`). -/
inductive SreTaskType
  | implement
  | configure
  | monitor
  | deploy
  | docs
  | troubleshoot
deriving DecidableEq, Repr

/-- The string value of a `SreTaskType` member (TypeScript string enum). -/
def SreTaskType.toStr : SreTaskType → String
  | .implement => "implement"
  | .configure => "configure"
  | .monitor => "monitor"
  | .deploy => "deploy"
  | .docs => "docs"
  | .troubleshoot => "troubleshoot"

/-- `SreTaskContext` of `sreTaskParser.ts`.  `parameters` is the `Map` with its
insertion order; `environment` and `urgency` are the optional fields. -/
structure SreTaskContext where
  type : SreTaskType
  target : String
  parameters : List (String × String)
  environment : Option String
  urgency : Option String
  rawInput : String
deriving DecidableEq, Repr

/-- `ImplementationStep` of `sreTaskParser.ts`. -/
structure ImplementationStep where
  step : Nat
  title : String
  description : String
  codeExample : Option String := none
  documentation : Option (List String) := none
  validationSteps : Option (List String) := none
deriving DecidableEq, Repr

/-- `SreImplementationPlan` of `sreTaskParser.ts`. -/
structure SreImplementationPlan where
  taskSummary : String
  steps : List ImplementationStep
  prerequisites : List String
  estimatedTime : String
  riskLevel : String
  rollbackSteps : List String
deriving DecidableEq, Repr

namespace SreTaskParser

/-- `/monitor|monitoring|alert|alerting|dashboard/` of `extractTaskType`. -/
def monitorTypePat : RPat :=
  [[lit "monitor"], [lit "monitoring"], [lit "alert"], [lit "alerting"], [lit "dashboard"]]

/-- `/implement|install|setup|add/` of `extractTaskType`. -/
def implementTypePat : RPat :=
  [[lit "implement"], [lit "install"], [lit "setup"], [lit "add"]]

/-- `/configure|config|set\s+up|customize/` of `extractTaskType`. -/
def configureTypePat : RPat :=
  [[lit "configure"], [lit "config"], [lit "set", wsp, lit "up"], [lit "customize"]]

/-- `/deploy|deployment|release|rollout/` of `extractTaskType`. -/
def deployTypePat : RPat :=
  [[lit "deploy"], [lit "deployment"], [lit "release"], [lit "rollout"]]

/-- `/doc|documentation|guide|help|reference/` of `extractTaskType`. -/
def docsTypePat : RPat :=
  [[lit "doc"], [lit "documentation"], [lit "guide"], [lit "help"], [lit "reference"]]

/-- `/troubleshoot|debug|issue|problem|fix/` of `extractTaskType`. -/
def troubleshootTypePat : RPat :=
  [[lit "troubleshoot"], [lit "debug"], [lit "issue"], [lit "problem"], [lit "fix"]]

/-- `SreTaskParser.extractTaskType`: the ordered if-chain of category regex
tests, defaulting to `implement`. -/
def extractTaskType (input : String) : SreTaskType :=
  if testPat monitorTypePat input then .monitor
  else if testPat implementTypePat input then .implement
  else if testPat configureTypePat input then .configure
  else if testPat deployTypePat input then .deploy
  else if testPat docsTypePat input then .docs
  else if testPat troubleshootTypePat input then .troubleshoot
  else .implement

/-- `SreTaskParser.toolPatterns`: the ordered (canonical name, regex) list.
The `/i` flags are immaterial because `parseTask` lower-cases its input. -/
def toolPatterns : List (String × RPat) :=
  [ ("dynatrace", [[lit "dynatrace"], [lit "dt", wsp, lit "agent"], [lit "dynatrace", wsp, lit "agent"]])
  , ("datadog", [[lit "datadog"], [lit "dd", wsp, lit "agent"], [lit "datadog", wsp, lit "agent"]])
  , ("prometheus", [[lit "prometheus"], [lit "prom", wsp, lit "monitoring"], [lit "prometheus", wsp, lit "monitoring"]])
  , ("grafana", [[lit "grafana"], [lit "grafana", wsp, lit "dashboard"]])
  , ("kubernetes", [[lit "k8s"], [lit "kubernetes"], [lit "kubectl"], [lit "kube"]])
  , ("docker", [[lit "docker"], [lit "container"], [lit "containerize"]])
  , ("terraform", [[lit "terraform"], [lit "tf", wsp, lit "deploy"], [lit "infrastructure", wsp, lit "as", wsp, lit "code"]])
  , ("ansible", [[lit "ansible"], [lit "playbook"], [lit "automation"]])
  , ("nginx", [[lit "nginx"], [lit "reverse", wsp, lit "proxy"], [lit "load", wsp, lit "balancer"]])
  , ("redis", [[lit "redis"], [lit "cache"], [lit "caching"]])
  , ("elasticsearch", [[lit "elasticsearch"], [lit "elk", wsp, lit "stack"], [lit "elastic"]])
  , ("jenkins", [[lit "jenkins"], [lit "ci/cd"], [lit "pipeline"]]) ]

/-- The stopword full-match test `/^(the|and|for|with|using|on|in|at|to|from)$/i`
applied to a token in `extractTarget`. -/
def isStopword (w : String) : Bool :=
  ["the", "and", "for", "with", "using", "on", "in", "at", "to", "from"].contains (lowerS w)

/-- `SreTaskParser.extractTarget`: first matching tool pattern in order, else
the first whitespace token longer than three characters that is not a
stopword, else `"unknown"`. -/
def extractTarget (input : String) : String :=
  match toolPatterns.find? (fun p => testPat p.2 input) with
  | some p => p.1
  | none =>
    let words := splitWsS input
    let toolWords := words.filter fun w => w.length > 3 && !isStopword w
    toolWords.head?.getD "unknown"

/-- Character class `[0-9.]` from the version regex. -/
def versionChar (c : Char) : Bool := c.isDigit || c = '.'

/-- Character class `[a-z0-9-]` with the `/i` flag from the namespace regex. -/
def namespaceChar (c : Char) : Bool := c.isAlpha || c.isDigit || c = '-'

/-- Consume a `\s+` run then a maximal nonempty run of `cls` characters,
returning the captured run (greedy, as in the source regexes). -/
def wsThenRun (cls : Char → Bool) : List Char → Option (List Char)
  | [] => none
  | c :: t =>
    if wsChar c then
      match wsThenRun cls t with
      | some r => some r
      | none =>
        let run := t.takeWhile cls
        if run.isEmpty then none else some run
    else none

/-- Capture of `/version\s+([0-9.]+)|v([0-9.]+)/i` at the head of `l`,
trying the alternatives in order. -/
def versionAt (l : List Char) : Option (List Char) :=
  (if "version".data.isPrefixOf l then wsThenRun versionChar (l.drop 7) else none).orElse
    fun _ =>
      if "v".data.isPrefixOf l then
        let run := (l.drop 1).takeWhile versionChar
        if run.isEmpty then none else some run
      else none

/-- Capture of `/port\s+([0-9]+)|:([0-9]+)/` at the head of `l`. -/
def portAt (l : List Char) : Option (List Char) :=
  (if "port".data.isPrefixOf l then wsThenRun Char.isDigit (l.drop 4) else none).orElse
    fun _ =>
      if ":".data.isPrefixOf l then
        let run := (l.drop 1).takeWhile Char.isDigit
        if run.isEmpty then none else some run
      else none

/-- Capture of `/namespace\s+([a-z0-9-]+)/i` at the head of `l`. -/
def namespaceAt (l : List Char) : Option (List Char) :=
  if "namespace".data.isPrefixOf l then wsThenRun namespaceChar (l.drop 9) else none

/-- Leftmost capture of a head-matcher over a string (JavaScript `match`). -/
def scanFirst (f : List Char → Option (List Char)) : List Char → Option (List Char)
  | [] => f []
  | c :: t =>
    match f (c :: t) with
    | some r => some r
    | none => scanFirst f t

/-- `SreTaskParser.extractParameters`: the three independent probes, keys in
insertion order version, port, namespace. -/
def extractParameters (input : String) : List (String × String) :=
  (match scanFirst versionAt input.data with
   | some v => [("version", (⟨v⟩ : String))]
   | none => []) ++
  (match scanFirst portAt input.data with
   | some v => [("port", (⟨v⟩ : String))]
   | none => []) ++
  (match scanFirst namespaceAt input.data with
   | some v => [("namespace", (⟨v⟩ : String))]
   | none => [])

/-- `SreTaskParser.environmentPatterns`: the ordered (name, regex) list. -/
def environmentPatterns : List (String × RPat) :=
  [ ("production", [[lit "prod"], [lit "production"], [lit "live"]])
  , ("staging", [[lit "staging"], [lit "stage"], [lit "uat"]])
  , ("development", [[lit "dev"], [lit "development"], [lit "local"]])
  , ("testing", [[lit "test"], [lit "testing"], [lit "qa"]]) ]

/-- `SreTaskParser.extractEnvironment`: first matching environment pattern. -/
def extractEnvironment (input : String) : Option String :=
  (environmentPatterns.find? (fun p => testPat p.2 input)).map (·.1)

/-- `/urgent|critical|asap|immediately|high\s+priority/` of `extractUrgency`. -/
def highUrgencyPat : RPat :=
  [[lit "urgent"], [lit "critical"], [lit "asap"], [lit "immediately"], [lit "high", wsp, lit "priority"]]

/-- `/soon|medium\s+priority|moderate/` of `extractUrgency`. -/
def mediumUrgencyPat : RPat :=
  [[lit "soon"], [lit "medium", wsp, lit "priority"], [lit "moderate"]]

/-- `/low\s+priority|when\s+possible|eventually/` of `extractUrgency`. -/
def lowUrgencyPat : RPat :=
  [[lit "low", wsp, lit "priority"], [lit "when", wsp, lit "possible"], [lit "eventually"]]

/-- `SreTaskParser.extractUrgency`. -/
def extractUrgency (input : String) : Option String :=
  if testPat highUrgencyPat input then some "high"
  else if testPat mediumUrgencyPat input then some "medium"
  else if testPat lowUrgencyPat input then some "low"
  else none

/-- `SreTaskParser.parseTask`: lower-cases the input and runs the extractors;
`rawInput` keeps the original text. -/
def parseTask (input : String) : SreTaskContext :=
  let lowerInput := lowerS input
  { type := extractTaskType lowerInput
    target := extractTarget lowerInput
    parameters := extractParameters lowerInput
    environment := extractEnvironment lowerInput
    urgency := extractUrgency lowerInput
    rawInput := input }

end SreTaskParser

namespace SreTaskParser

/-- `SreTaskParser.generateTaskSummary`. -/
def generateTaskSummary (context : SreTaskContext) : String :=
  let envStr := match context.environment with
    | some e => " in " ++ e
    | none => ""
  let ty := context.type.toStr
  (⟨(ty.data.take 1).map Char.toUpper⟩ : String) ++ (⟨ty.data.drop 1⟩ : String) ++ " " ++ context.target ++ envStr

/-- `SreTaskParser.getDynatraceK8sExample`: the DaemonSet manifest with the
`namespace` parameter substituted (default `dynatrace`). -/
def getDynatraceK8sExample (context : SreTaskContext) : String :=
  let ns :=
    match (context.parameters.find? (fun p => p.1 = "namespace")).map (·.2) with
    | some v => if v = "" then "dynatrace" else v
    | none => "dynatrace"
  "apiVersion: apps/v1\nkind: DaemonSet\nmetadata:\n  name: dynatrace-oneagent\n  namespace: " ++ ns ++ "\nspec:\n  selector:\n    matchLabels:\n      name: dynatrace-oneagent\n  template:\n    metadata:\n      labels:\n        name: dynatrace-oneagent\n    spec:\n      containers:\n      - name: dynatrace-oneagent\n        image: dynatrace/oneagent\n        env:\n        - name: DT_TENANT\n          valueFrom:\n            secretKeyRef:\n              name: dynatrace-secret\n              key: tenant\n        - name: DT_API_TOKEN\n          valueFrom:\n            secretKeyRef:\n              name: dynatrace-secret\n              key: apiToken\n        - name: DT_CLUSTER_ID\n          value: \"production-cluster\"\n        securityContext:\n          privileged: true\n        volumeMounts:\n        - name: host-root\n          mountPath: /mnt/root\n      volumes:\n      - name: host-root\n        hostPath:\n          path: /\n      hostNetwork: true\n      hostPID: true\n      hostIPC: true"

/-- `SreTaskParser.generateDynatraceSteps`. -/
def generateDynatraceSteps (context : SreTaskContext) : List ImplementationStep :=
  [ { step := 1, title := "Retrieve Dynatrace Configuration"
      description := "Get tenant ID and API token from internal documentation"
      documentation := some ["Dynatrace Setup Guide", "Security Token Management"] }
  , { step := 2, title := "Deploy OneAgent"
      description := "Install Dynatrace OneAgent as DaemonSet"
      codeExample := some (getDynatraceK8sExample context)
      validationSteps := some ["Check pod status", "Verify agent connectivity"] }
  , { step := 3, title := "Configure Monitoring Rules"
      description := "Set up application monitoring and alerting rules"
      validationSteps := some ["Test alert triggers", "Validate metrics collection"] } ]

/-- `SreTaskParser.generatePrometheusSteps`. -/
def generatePrometheusSteps (_context : SreTaskContext) : List ImplementationStep :=
  [ { step := 1, title := "Deploy Prometheus Server"
      description := "Set up Prometheus server with persistent storage"
      codeExample := some "kubectl apply -f prometheus-deployment.yaml" }
  , { step := 2, title := "Configure Service Discovery"
      description := "Set up automatic service discovery for monitoring targets" }
  , { step := 3, title := "Create Alerting Rules"
      description := "Define alerting rules for SRE metrics and SLIs" } ]

/-- `SreTaskParser.generateKubernetesSteps`. -/
def generateKubernetesSteps (_context : SreTaskContext) : List ImplementationStep :=
  [ { step := 1, title := "Create Namespace"
      description := "Set up dedicated namespace for the application" }
  , { step := 2, title := "Deploy Application"
      description := "Create deployment and service manifests" }
  , { step := 3, title := "Configure Ingress"
      description := "Set up ingress controller and routing rules" } ]

/-- `SreTaskParser.generateGenericSteps`. -/
def generateGenericSteps (context : SreTaskContext) : List ImplementationStep :=
  [ { step := 1, title := "Research and Planning"
      description := "Research " ++ context.target ++ " implementation requirements and best practices" }
  , { step := 2, title := "Environment Preparation"
      description := "Prepare target environment and install dependencies" }
  , { step := 3, title := "Implementation"
      description := "Deploy and configure " ++ context.target }
  , { step := 4, title := "Validation and Testing"
      description := "Validate implementation and run acceptance tests" } ]

/-- `SreTaskParser.generateSteps`: dispatch on `target`. -/
def generateSteps (context : SreTaskContext) : List ImplementationStep :=
  match context.target with
  | "dynatrace" => generateDynatraceSteps context
  | "prometheus" => generatePrometheusSteps context
  | "kubernetes" => generateKubernetesSteps context
  | _ => generateGenericSteps context

/-- The `/k8s/` test inside `generatePrerequisites`. -/
def k8sPat : RPat := [[lit "k8s"]]

/-- `SreTaskParser.generatePrerequisites`. -/
def generatePrerequisites (context : SreTaskContext) : List String :=
  (if context.target = "kubernetes" || testPat k8sPat context.rawInput then
    ["Kubernetes cluster access", "kubectl configured"]
   else []) ++
  (if context.environment = some "production" then
    ["Change management approval", "Backup verification"]
   else []) ++
  ["Access to internal documentation", "Required permissions verified"]

/-- `SreTaskParser.assessComplexity`: `high` for the fixed complex-tool set,
else `medium` when more than two parameters, else `low`. -/
def assessComplexity (context : SreTaskContext) : String :=
  let complexTools := ["kubernetes", "prometheus", "elasticsearch"]
  if complexTools.contains context.target then "high"
  else if context.parameters.length > 2 then "medium"
  else "low"

/-- `SreTaskParser.estimateTime`: switch on the complexity classification with
the source's (unreachable) default branch kept intact. -/
def estimateTime (context : SreTaskContext) : String :=
  match assessComplexity context with
  | "low" => "1-2 hours"
  | "medium" => "4-8 hours"
  | "high" => "1-2 days"
  | _ => "2-4 hours"

/-- `SreTaskParser.assessRisk`: `high` in production, else `medium` under high
urgency, else `low`. -/
def assessRisk (context : SreTaskContext) : String :=
  if context.environment = some "production" then "high"
  else if context.urgency = some "high" then "medium"
  else "low"

/-- `SreTaskParser.generateRollbackSteps`: fixed, target-independent. -/
def generateRollbackSteps (_context : SreTaskContext) : List String :=
  [ "Stop new deployment"
  , "Restore previous configuration"
  , "Verify system stability"
  , "Update monitoring dashboards" ]

/-- `SreTaskParser.generateImplementationPlan`. -/
def generateImplementationPlan (context : SreTaskContext) : SreImplementationPlan :=
  { taskSummary := generateTaskSummary context
    steps := generateSteps context
    prerequisites := generatePrerequisites context
    estimatedTime := estimateTime context
    riskLevel := assessRisk context
    rollbackSteps := generateRollbackSteps context }

end SreTaskParser

namespace SreBuddyChatParticipant

/-- The `risk` local variable computed by
`SreBuddyChatParticipant.assessRisk` before the icon is prepended:
`HIGH` when the environment mentions `prod`, else `MEDIUM` when it mentions
`staging`; escalated one level when the target mentions `database` or
`storage`. -/
def chatRiskLevel (parsedTask : SreTaskContext) : String :=
  let risk := "LOW"
  let risk :=
    if (parsedTask.environment.map fun e => containsS (lowerS e) "prod").getD false then "HIGH"
    else if (parsedTask.environment.map fun e => containsS (lowerS e) "staging").getD false then "MEDIUM"
    else risk
  if containsS (lowerS parsedTask.target) "database" || containsS (lowerS parsedTask.target) "storage" then
    if risk = "LOW" then "MEDIUM" else "HIGH"
  else risk

/-- The `riskIcons` lookup of `SreBuddyChatParticipant.assessRisk`. -/
def riskIcon : String → String
  | "LOW" => "🟢"
  | "MEDIUM" => "🟡"
  | "HIGH" => "🔴"
  | _ => ""

/-- `SreBuddyChatParticipant.assessRisk`: the icon-prefixed risk string shown
on the chat surface. -/
def assessRisk (parsedTask : SreTaskContext) : String :=
  riskIcon (chatRiskLevel parsedTask) ++ " " ++ chatRiskLevel parsedTask

end SreBuddyChatParticipant

/-- Exact rational similarity score, kept as an unreduced
numerator/denominator pair so that every arithmetic step of the embedded
scoring code is a plain integer computation.  Every denominator produced by
the scoring code is positive, and the cross-multiplication order below agrees
with the rational order exactly for positive denominators. -/
structure Score where
  num : Int
  den : Int
deriving DecidableEq, Repr

/-- The integer score `n`. -/
def Score.ofNat (n : Nat) : Score := { num := n, den := 1 }

/-- Exact score addition. -/
def Score.add (x y : Score) : Score :=
  { num := x.num * y.den + y.num * x.den, den := x.den * y.den }

/-- Exact division of a score by a count. -/
def Score.divN (x : Score) (n : Nat) : Score := { num := x.num, den := x.den * n }

instance : LT Score := ⟨fun x y => x.num * y.den < y.num * x.den⟩

instance : LE Score := ⟨fun x y => x.num * y.den ≤ y.num * x.den⟩

instance (x y : Score) : Decidable (x < y) :=
  inferInstanceAs (Decidable (x.num * y.den < y.num * x.den))

instance (x y : Score) : Decidable (x ≤ y) :=
  inferInstanceAs (Decidable (x.num * y.den ≤ y.num * x.den))

/-- Score equality as rationals (cross multiplication). -/
def Score.eqv (x y : Score) : Prop := x.num * y.den = y.num * x.den

instance (x y : Score) : Decidable (Score.eqv x y) :=
  inferInstanceAs (Decidable (x.num * y.den = y.num * x.den))

/-- The rational value of a score. -/
def Score.toRat (x : Score) : ℚ := (x.num : ℚ) / (x.den : ℚ)

/-- `PromptTemplate` of `srePromptLoader.ts`. -/
structure PromptTemplate where
  command : String
  examples : List String
  prompt : String
  tags : List String
deriving DecidableEq, Repr

namespace SrePromptLoader

/-- JavaScript `x || d` for the strings used as placeholder values. -/
def orStr (s d : String) : String := if s = "" then d else s

/-- JavaScript `x || d` for the optional environment field. -/
def orOptStr (o : Option String) (d : String) : String :=
  match o with
  | some s => if s = "" then d else s
  | none => d

/-- `content.split(/^## /m)`: split on the section marker at line starts,
dropping the marker (`atLineStart` tracks the multiline `^`; `skip` consumes
the remaining marker characters after a match). -/
def splitSectionsAux (cur : List Char) (atLineStart : Bool) (skip : Nat) :
    List Char → List (List Char)
  | [] => [cur.reverse]
  | c :: t =>
    match skip with
    | Nat.succ k => splitSectionsAux cur atLineStart k t
    | 0 =>
      if atLineStart && "## ".data.isPrefixOf (c :: t) then
        cur.reverse :: splitSectionsAux [] false 2 t
      else
        splitSectionsAux (c :: cur) (c = '\n') 0 t

/-- The top-level section split of `parsePromptTemplates`. -/
def splitSections (content : String) : List String :=
  (splitSectionsAux [] true 0 content.data).map fun l => ⟨l⟩

/-- Alternative `SRE (\\w+) Prompts?` of the double-escaped header regex
(`logger.ts` 209): `\\w+` is a literal backslash followed by a greedy
nonempty run of `w` characters, both inside the capture group; backtracking
the greedy run can never help, so the maximal run is exact. -/
def headerAlt1 (l : List Char) : Option (List Char) :=
  if "sre \\".data.isPrefixOf l then
    let w := (l.drop 5).takeWhile (fun c => c = 'w')
    if w.isEmpty then none
    else if " prompt".data.isPrefixOf (l.drop (5 + w.length)) then some ('\\' :: w) else none
  else none

/-- Alternative `Prompt Templates? for (\\w+)` of the double-escaped header
regex (the greedy optional `s` is tried first, exactly as the JavaScript
engine does; the capture again starts with the literal backslash). -/
def headerAlt2 (l : List Char) : Option (List Char) :=
  if "prompt template".data.isPrefixOf l then
    let rest := l.drop 15
    let rest2 :=
      if "s for \\".data.isPrefixOf rest then some (rest.drop 7)
      else if " for \\".data.isPrefixOf rest then some (rest.drop 6)
      else none
    match rest2 with
    | none => none
    | some r =>
      let w := r.takeWhile (fun c => c = 'w')
      if w.isEmpty then none else some ('\\' :: w)
  else none

/-- Alternative `LLM (\\w+) Instructions?` of the double-escaped header
regex. -/
def headerAlt3 (l : List Char) : Option (List Char) :=
  if "llm \\".data.isPrefixOf l then
    let w := (l.drop 5).takeWhile (fun c => c = 'w')
    if w.isEmpty then none
    else if " instruction".data.isPrefixOf (l.drop (5 + w.length)) then some ('\\' :: w) else none
  else none

/-- The three header alternatives in source order at one position. -/
def headerCmdAt (l : List Char) : Option (List Char) :=
  (headerAlt1 l).orElse fun _ => (headerAlt2 l).orElse fun _ => headerAlt3 l

/-- `header.match(/SRE (\\w+) Prompts?|Prompt Templates? for (\\w+)|LLM (\\w+) Instructions?/i)`
of `logger.ts` 209, a double-escaped regex: each alternative demands a
literal backslash before the `w` run, so ordinary prose headers never match.
The lower-cased capture (backslash plus `w` run) is what the source stores
(`.toLowerCase()` commutes with the capture, so matching on the lower-cased
header is exact). -/
def findHeaderCmd (header : String) : Option String :=
  (SreTaskParser.scanFirst headerCmdAt (lowerS header).data).map fun l => ⟨l⟩

/-- The mutable loop state of `parseTemplateSection`: the current subsection
marker and the accumulated examples, tags and prompt body. -/
structure SectionState where
  currentSection : String
  examples : List String
  tags : List String
  prompt : String
deriving DecidableEq, Repr

/-- One iteration of the line loop of `parseTemplateSection`.  The prompt
accumulator appends the two-character literal backslash-n text of the
double-escaped source (`logger.ts` 243), not a newline. -/
def processLine (st : SectionState) (raw : String) : SectionState :=
  let line := trimS raw
  if startsWithS line "### Examples" || startsWithS line "**Examples" then
    { st with currentSection := "examples" }
  else if startsWithS line "### Prompt" || startsWithS line "**Prompt" then
    { st with currentSection := "prompt" }
  else if startsWithS line "### Tags" || startsWithS line "**Tags" then
    { st with currentSection := "tags" }
  else
    let st :=
      if st.currentSection = "examples" && startsWithS line "-" then
        { st with examples := st.examples ++ [trimS (⟨line.data.drop 1⟩ : String)] }
      else st
    let st :=
      if st.currentSection = "prompt" && line ≠ "" then
        { st with prompt := st.prompt ++ line ++ "\\n" }
      else st
    if st.currentSection = "tags" && startsWithS line "-" then
      { st with tags := st.tags ++ [trimS (⟨line.data.drop 1⟩ : String)] }
    else st

/-- `SrePromptLoader.parseTemplateSection`: a section is emitted only when its
header carries a command and it has at least one example and a nonempty
prompt body (stored trimmed). -/
def parseTemplateSection (sec : String) : Option PromptTemplate :=
  let lines := splitNlS sec
  let header := trimS (lines.headD "")
  match findHeaderCmd header with
  | none => none
  | some command =>
    let st := (lines.drop 1).foldl processLine
      { currentSection := "", examples := [], tags := [], prompt := "" }
    if st.examples.length > 0 && st.prompt ≠ "" then
      some { command := command, examples := st.examples, prompt := trimS st.prompt, tags := st.tags }
    else none

/-- `SrePromptLoader.parsePromptTemplates`: split into sections, keep the ones
whose trimmed text is nonempty, parse each, drop failures. -/
def parsePromptTemplates (content : String) : List PromptTemplate :=
  ((splitSections content).filter fun s => trimS s ≠ "").filterMap parseTemplateSection

/-- Per-example coverage inside `calculateSimilarityScore`: matching example
tokens (bidirectional containment against the task tokens) over the larger
token count.  Tokenisation is the double-escaped `split(/\\s+/)` of
`logger.ts` 294, so a text with no literal backslash-s sequence is a single
token and coverage degenerates to whole-string containment. -/
def exampleCoverage (taskWords : List (List Char)) (ex : String) : Score :=
  let exampleWords := splitBsL (lowerS ex).data
  let matchingWords := exampleWords.countP fun w =>
    taskWords.any fun tw => containsL tw w || containsL w tw
  Score.divN { num := matchingWords, den := 1 } (max exampleWords.length taskWords.length)

/-- `SrePromptLoader.calculateSimilarityScore`: average per-example coverage
plus a flat `0.5` bonus per tag contained in the task text, divided by the
example count.  The task text is tokenised with the same double-escaped
`split(/\\s+/)` as the examples (`logger.ts` 295). -/
def calculateSimilarityScore (taskContext : SreTaskContext) (template : PromptTemplate) : Score :=
  let taskText := lowerS (taskContext.rawInput ++ " " ++ taskContext.target)
  let taskWords := splitBsL taskText.data
  let totalFromExamples := template.examples.foldl
    (fun acc ex => acc.add (exampleCoverage taskWords ex)) (Score.ofNat 0)
  let matchCount := template.examples.length
  let totalScore := template.tags.foldl
    (fun acc tag =>
      if containsS taskText (lowerS tag) then acc.add { num := 1, den := 2 } else acc)
    totalFromExamples
  if matchCount > 0 then totalScore.divN matchCount else Score.ofNat 0

/-- The best-candidate loop of `findBestMatchingTemplate`: strict improvement
updates, so the earliest template wins ties. -/
def selectLoop (score : PromptTemplate → Score) :
    List PromptTemplate → Option PromptTemplate → Score → Option PromptTemplate × Score
  | [], best, bestScore => (best, bestScore)
  | t :: ts, best, bestScore =>
    if score t > bestScore then selectLoop score ts (some t) (score t)
    else selectLoop score ts best bestScore

/-- `SrePromptLoader.findBestMatchingTemplate`: filter on exact command
equality, take the strictly-best-scoring candidate, return it only above the
`0.3` threshold. -/
def findBestMatchingTemplate (templates : List PromptTemplate)
    (taskContext : SreTaskContext) (command : String) : Option PromptTemplate :=
  let commandTemplates := templates.filter fun t => t.command = command
  if commandTemplates.isEmpty then none
  else
    let r := selectLoop (calculateSimilarityScore taskContext) commandTemplates none (Score.ofNat 0)
    if r.2 > ({ num := 3, den := 10 } : Score) then r.1 else none

/-- `SrePromptLoader.buildPromptFromTemplate`: global substitution of the
double-escaped placeholder tokens — `logger.ts` 326-329 replaces the
backslash-brace text `\\{target\\}` and friends, so a plain `{target}`
survives — followed by the Additional Context block when parameters exist;
the block separators are the literal backslash-n text of the double-escaped
`logger.ts` 333-335. -/
def buildPromptFromTemplate (template : PromptTemplate) (taskContext : SreTaskContext) : String :=
  let prompt := template.prompt
  let prompt := replaceAllS prompt "\\\x7btarget\\\x7d" (orStr taskContext.target "infrastructure component")
  let prompt := replaceAllS prompt "\\\x7benvironment\\\x7d" (orOptStr taskContext.environment "unspecified")
  let prompt := replaceAllS prompt "\\\x7brawInput\\\x7d" taskContext.rawInput
  let prompt := replaceAllS prompt "\\\x7btype\\\x7d" taskContext.type.toStr
  if taskContext.parameters.length > 0 then
    let contextStr := taskContext.parameters.foldl
      (fun acc kv => acc ++ "- " ++ kv.1 ++ ": " ++ kv.2 ++ "\\n")
      "\\nAdditional Context:\\n"
    prompt ++ contextStr
  else prompt

/-- `SrePromptLoader.buildPromptFromFallback`: single (first-occurrence)
string replacement of three placeholders. -/
def buildPromptFromFallback (fallbackPrompt : String) (taskContext : SreTaskContext) : String :=
  replaceFirstS
    (replaceFirstS
      (replaceFirstS fallbackPrompt "{target}" (orStr taskContext.target "infrastructure component"))
      "{environment}" (orOptStr taskContext.environment "unspecified"))
    "{rawInput}" taskContext.rawInput

/-- `SrePromptLoader.buildGenericPrompt`. -/
def buildGenericPrompt (taskContext : SreTaskContext) (command : String) : String :=
  "You are SreBuddy, an expert Site Reliability Engineer assistant.\n\nTask: " ++ command ++ " " ++
    orStr taskContext.target "infrastructure component" ++ "\nEnvironment: " ++
    orOptStr taskContext.environment "unspecified" ++ "\nContext: " ++ taskContext.rawInput ++
    "\n\nPlease provide comprehensive SRE guidance that includes:\n1. **Step-by-step instructions** with clear actions\n2. **Best practices** for production environments\n3. **Code examples** with proper syntax highlighting\n4. **Validation steps** to ensure success\n5. **Rollback procedures** for safety\n6. **Monitoring considerations** for observability\n\nFocus on practical, battle-tested solutions that follow SRE principles."

/-- The `implement` entry of `initializeFallbackPrompts`. -/
def implementFallback : String :=
  "You are SreBuddy, an expert Site Reliability Engineer assistant. \n\nTask: Implement {target}\nEnvironment: {environment}\nContext: {rawInput}\n\nProvide a comprehensive implementation guide with:\n1. **Prerequisites** - All requirements and dependencies\n2. **Step-by-step Implementation** - Detailed instructions\n3. **Configuration Examples** - Complete configs with syntax highlighting\n4. **Validation Steps** - How to verify success\n5. **Monitoring Setup** - Basic observability\n6. **Rollback Plan** - Safe reversion procedures\n7. **Security Considerations** - Best practices\n8. **Troubleshooting** - Common issues and solutions\n\nFormat with clear markdown, realistic estimates, and production-ready examples."

/-- The `deploy` entry of `initializeFallbackPrompts`. -/
def deployFallback : String :=
  "You are SreBuddy, an expert Site Reliability Engineer assistant specializing in deployments.\n\nTask: Deploy {target}\nEnvironment: {environment}\nContext: {rawInput}\n\nCreate a production-ready deployment plan with:\n1. **Deployment Strategy** - Blue/green, rolling, canary\n2. **Pre-deployment Checklist** - Required verifications\n3. **Infrastructure Requirements** - Resources and networking\n4. **Deployment Scripts** - Complete automation\n5. **Health Checks** - Readiness and liveness probes\n6. **Monitoring & Observability** - Metrics and alerting\n7. **Rollback Procedures** - Automated recovery\n8. **Post-deployment Validation** - Testing steps\n\nInclude Kubernetes, CI/CD, and IaC examples where applicable."

/-- The `monitor` entry of `initializeFallbackPrompts`. -/
def monitorFallback : String :=
  "You are SreBuddy, an expert Site Reliability Engineer assistant specializing in monitoring.\n\nTask: Set up monitoring for {target}\nContext: {rawInput}\n\nCreate a comprehensive monitoring strategy with:\n1. **Monitoring Architecture** - Components and data flow\n2. **Key Metrics** - SLIs to track\n3. **Alerting Rules** - SLOs and notification strategy\n4. **Dashboards** - Visual monitoring layouts\n5. **Log Aggregation** - Centralized logging\n6. **Configuration Files** - Complete monitoring configs\n7. **Integration Setup** - Connecting to existing systems\n8. **Maintenance** - Regular tasks and updates\n\nInclude Prometheus, Grafana, and AlertManager configurations."

/-- The `configure` entry of `initializeFallbackPrompts`. -/
def configureFallback : String :=
  "You are SreBuddy, an expert Site Reliability Engineer assistant specializing in configuration management.\n\nTask: Configure {target}\nEnvironment: {environment}\nContext: {rawInput}\n\nGenerate production-ready configuration with:\n1. **Base Configuration** - Core settings\n2. **Environment-Specific Settings** - Dev/staging/prod variations\n3. **Security Configuration** - Authentication and encryption\n4. **Performance Tuning** - Optimization settings\n5. **Integration Points** - Service connections\n6. **Backup & Recovery** - Data protection\n7. **Monitoring Integration** - Health checks\n8. **Deployment Instructions** - Application steps\n\nProvide complete configs with comments and validation commands."

/-- The `troubleshoot` entry of `initializeFallbackPrompts`. -/
def troubleshootFallback : String :=
  "You are SreBuddy, an expert Site Reliability Engineer assistant specializing in incident response.\n\nIssue: {rawInput}\n\nProvide a structured troubleshooting guide with:\n1. **Initial Assessment** - Quick triage steps\n2. **Data Collection** - Logs, metrics, and diagnostics\n3. **Root Cause Analysis** - Investigation approach\n4. **Common Causes** - Most likely issues\n5. **Resolution Steps** - Fix procedures\n6. **Verification** - Confirming resolution\n7. **Prevention** - Avoiding recurrence\n8. **Escalation** - When and how to escalate\n\nInclude specific commands, log patterns, and runbook references."

/-- The `fallbackPrompts` map of `initializeFallbackPrompts`, in insertion
order. -/
def fallbackPrompts : List (String × String) :=
  [ ("implement", implementFallback)
  , ("deploy", deployFallback)
  , ("monitor", monitorFallback)
  , ("configure", configureFallback)
  , ("troubleshoot", troubleshootFallback) ]

/-- The pure core of `SrePromptLoader.getPromptForTask`: matched template,
else the static fallback for the command, else the generic prompt. -/
def getPromptForTask (templates : List PromptTemplate) (taskContext : SreTaskContext)
    (command : String) : String :=
  match findBestMatchingTemplate templates taskContext command with
  | some template => buildPromptFromTemplate template taskContext
  | none =>
    match (fallbackPrompts.find? fun p => p.1 = command).map (·.2) with
    | some fallbackPrompt => buildPromptFromFallback fallbackPrompt taskContext
    | none => buildGenericPrompt taskContext command

end SrePromptLoader

namespace SpecSide

/-- Modelled from the spec's wording: the claim-side fallback substitution of
C2 — substitute all four plain curly-brace placeholders `{target}`,
`{environment}`, `{rawInput}`, `{type}` (the brace-delimited tokens that
actually appear in the static fallback bodies), replacing every occurrence of
each in the fallback body. -/
def fallbackSubstFour (fallbackPrompt : String) (taskContext : SreTaskContext) : String :=
  let prompt := fallbackPrompt
  let prompt := replaceAllS prompt "{target}" (SrePromptLoader.orStr taskContext.target "infrastructure component")
  let prompt := replaceAllS prompt "{environment}" (SrePromptLoader.orOptStr taskContext.environment "unspecified")
  let prompt := replaceAllS prompt "{rawInput}" taskContext.rawInput
  replaceAllS prompt "{type}" taskContext.type.toStr

/-- Modelled from the spec: the claim-side template selection of C4 — the
same scoring loop and `0.3` threshold, but filtering on case-insensitive
command equality, as the claim words it. -/
def selectTemplateCI (templates : List PromptTemplate)
    (taskContext : SreTaskContext) (command : String) : Option PromptTemplate :=
  let commandTemplates := templates.filter fun t => lowerS t.command = lowerS command
  if commandTemplates.isEmpty then none
  else
    let r := SrePromptLoader.selectLoop (SrePromptLoader.calculateSimilarityScore taskContext)
      commandTemplates none (Score.ofNat 0)
    if r.2 > ({ num := 3, den := 10 } : Score) then r.1 else none

/-- The ordered (category pattern, task type) list of the classifier, written
as explicit first-match-wins data for the refinement statement of C6. -/
def typeOrder : List (RPat × SreTaskType) :=
  [ (SreTaskParser.monitorTypePat, .monitor)
  , (SreTaskParser.implementTypePat, .implement)
  , (SreTaskParser.configureTypePat, .configure)
  , (SreTaskParser.deployTypePat, .deploy)
  , (SreTaskParser.docsTypePat, .docs)
  , (SreTaskParser.troubleshootTypePat, .troubleshoot) ]

/-- First-match-wins resolution over `typeOrder` with default `implement`,
the spec-side shape of task-type resolution. -/
def resolveTypeOrdered (input : String) : SreTaskType :=
  match typeOrder.find? (fun p => testPat p.1 input) with
  | some p => p.2
  | none => .implement

end SpecSide

/-- A concrete parsed template used to exercise the template matcher. -/
def sampleTemplate : PromptTemplate :=
  { command := "implement", examples := ["deploy app now"],
    prompt := "Do the thing for {target}", tags := [] }

/-- A concrete descriptor used to exercise the template matcher. -/
def sampleContext : SreTaskContext :=
  { type := .deploy, target := "app", parameters := [], environment := none,
    urgency := none, rawInput := "deploy app now" }

/-- Underlying characters of an appended string. -/
theorem data_append (a b : String) : (a ++ b).data = a.data ++ b.data := rfl

/-- A nonempty string has nonempty character data. -/
theorem ne_empty_iff_data (s : String) : s ≠ "" ↔ s.data ≠ [] := by
  cases s with
  | mk d => simp [String.ext_iff]

/-- `isPrefixOf` is reflexive. -/
theorem isPrefixOf_refl (l : List Char) : l.isPrefixOf l = true := by
  induction l with
  | nil => rfl
  | cons c t ih => simp [List.isPrefixOf, ih]

/-- A prefix of `x` is a prefix of `x ++ y`. -/
theorem isPrefixOf_append_of (a x y : List Char) (h : a.isPrefixOf x = true) :
    a.isPrefixOf (x ++ y) = true := by
  induction a generalizing x with
  | nil => simp [List.isPrefixOf]
  | cons b bs ih =>
    cases x with
    | nil => simp [List.isPrefixOf] at h
    | cons c cs =>
      simp only [List.isPrefixOf, List.cons_append, Bool.and_eq_true, beq_iff_eq] at h ⊢
      exact ⟨h.1, ih cs h.2⟩

/-- Unfolding `containsL` at a cons cell. -/
theorem containsL_cons (c : Char) (t pat : List Char) :
    containsL (c :: t) pat = (pat.isPrefixOf (c :: t) || containsL t pat) := by
  rw [containsL]

/-- A pattern occurring as a prefix occurs as a substring. -/
theorem containsL_of_isPrefixOf {hay pat : List Char} (h : pat.isPrefixOf hay = true) :
    containsL hay pat = true := by
  cases hay <;> rw [containsL] <;> simp [h]

/-- A substring of `x` is a substring of `x ++ y`. -/
theorem containsL_append_left (x y pat : List Char) (h : containsL x pat = true) :
    containsL (x ++ y) pat = true := by
  induction x with
  | nil =>
    rw [containsL] at h
    simp only [Bool.or_false] at h
    exact containsL_of_isPrefixOf (isPrefixOf_append_of _ _ _ h)
  | cons c t ih =>
    rw [containsL_cons] at h
    rw [List.cons_append, containsL_cons]
    rcases Bool.or_eq_true _ _ |>.mp h with h1 | h2
    · exact Bool.or_eq_true _ _ |>.mpr (Or.inl (isPrefixOf_append_of _ _ _ h1))
    · exact Bool.or_eq_true _ _ |>.mpr (Or.inr (ih h2))

/-- A substring of `y` is a substring of `x ++ y`. -/
theorem containsL_append_right (x y pat : List Char) (h : containsL y pat = true) :
    containsL (x ++ y) pat = true := by
  induction x with
  | nil => simpa
  | cons c t ih =>
    rw [List.cons_append, containsL_cons]
    exact Bool.or_eq_true _ _ |>.mpr (Or.inr ih)

/-- Every list is a substring of itself. -/
theorem containsL_self (l : List Char) : containsL l l = true :=
  containsL_of_isPrefixOf (isPrefixOf_refl l)

/-- The `split(/\s+/)` embedding never returns an empty token list. -/
theorem splitWsGo_ne_nil (l : List Char) : ∀ st, splitWsGo st l ≠ [] := by
  induction l with
  | nil =>
    intro st
    rcases st with _ | cur <;> rw [splitWsGo] <;> exact List.cons_ne_nil _ _
  | cons c t ih =>
    intro st
    rcases st with _ | cur <;> rw [splitWsGo] <;> split
    · exact ih none
    · exact ih (some [c])
    · exact List.cons_ne_nil _ _
    · exact ih (some (c :: cur))

/-- `splitWsL` never returns the empty list (JavaScript `split` always yields
at least one token). -/
theorem splitWsL_ne_nil (l : List Char) : splitWsL l ≠ [] := splitWsGo_ne_nil l (some [])

/-- The double-escaped `split(/\\s+/)` embedding never returns an empty
token list either. -/
theorem splitBsGo_ne_nil (l : List Char) : ∀ st, splitBsGo st l ≠ [] := by
  induction l with
  | nil =>
    intro st
    rcases st with cur | cur | _ <;> rw [splitBsGo] <;> exact List.cons_ne_nil _ _
  | cons c t ih =>
    intro st
    rcases st with cur | cur | _ <;> rw [splitBsGo]
    · split
      · exact ih (BsState.bs cur)
      · exact ih (BsState.tok (c :: cur))
    · split
      · exact List.cons_ne_nil _ _
      · split
        · exact ih (BsState.bs ('\\' :: cur))
        · exact ih (BsState.tok (c :: '\\' :: cur))
    · split
      · exact ih BsState.sep
      · split
        · exact ih (BsState.bs [])
        · exact ih (BsState.tok [c])

/-- `splitBsL` never returns the empty list. -/
theorem splitBsL_ne_nil (l : List Char) : splitBsL l ≠ [] :=
  splitBsGo_ne_nil l (BsState.tok [])

/-- Shifting the accumulator out of an additive fold. -/
theorem foldl_add_shift {α : Type} (f : α → ℚ) (l : List α) (c : ℚ) :
    l.foldl (fun acc x => acc + f x) c = c + l.foldl (fun acc x => acc + f x) 0 := by
  induction l generalizing c with
  | nil => simp
  | cons x t ih =>
    simp only [List.foldl_cons]
    rw [ih (c + f x), ih (0 + f x)]
    ring

/-- An additive fold of values each below `1` over a nonempty list stays
strictly below the list length. -/
theorem foldl_add_lt_length {α : Type} (f : α → ℚ) (l : List α) (hne : l ≠ [])
    (h : ∀ x ∈ l, f x < 1) : l.foldl (fun acc x => acc + f x) 0 < (l.length : ℚ) := by
  induction l with
  | nil => exact absurd rfl hne
  | cons x t ih =>
    simp only [List.foldl_cons, zero_add]
    rw [foldl_add_shift]
    cases t with
    | nil => simpa using h x (List.mem_cons_self x [])
    | cons y u =>
      have h1 : f x < 1 := h x (List.mem_cons_self _ _)
      have h2 : (y :: u).foldl (fun acc x => acc + f x) 0 < ((y :: u).length : ℚ) :=
        ih (List.cons_ne_nil _ _) fun z hz => h z (List.mem_cons_of_mem _ hz)
      simp only [List.length_cons] at h2 ⊢
      push_cast at h2 ⊢
      linarith

/-- Cross-multiplication comparison agrees with the rational order for
positive denominators. -/
theorem Score.lt_iff (x y : Score) (hx : 0 < x.den) (hy : 0 < y.den) :
    x < y ↔ x.toRat < y.toRat := by
  show x.num * y.den < y.num * x.den ↔ _
  unfold Score.toRat
  rw [div_lt_div_iff₀ (by exact_mod_cast hx) (by exact_mod_cast hy)]
  constructor
  · intro h; exact_mod_cast h
  · intro h; exact_mod_cast h

/-- Cross-multiplication non-strict comparison agrees with the rational
order for positive denominators. -/
theorem Score.le_iff (x y : Score) (hx : 0 < x.den) (hy : 0 < y.den) :
    x ≤ y ↔ x.toRat ≤ y.toRat := by
  show x.num * y.den ≤ y.num * x.den ↔ _
  unfold Score.toRat
  rw [div_le_div_iff₀ (by exact_mod_cast hx) (by exact_mod_cast hy)]
  constructor
  · intro h; exact_mod_cast h
  · intro h; exact_mod_cast h

/-- `Score.add` computes rational addition (nonzero denominators). -/
theorem Score.toRat_add (x y : Score) (hx : x.den ≠ 0) (hy : y.den ≠ 0) :
    (x.add y).toRat = x.toRat + y.toRat := by
  unfold Score.add Score.toRat
  dsimp only
  rw [div_add_div _ _ (by exact_mod_cast hx) (by exact_mod_cast hy)]
  push_cast
  ring_nf

/-- `Score.divN` computes rational division. -/
theorem Score.toRat_divN (x : Score) (n : Nat) : (x.divN n).toRat = x.toRat / n := by
  unfold Score.divN Score.toRat
  dsimp only
  push_cast
  rw [div_div]

/-- `Score.ofNat` computes the rational `n`. -/
theorem Score.toRat_ofNat (n : Nat) : (Score.ofNat n).toRat = n := by
  unfold Score.ofNat Score.toRat
  dsimp only
  push_cast
  simp

/-- Adding scores with positive denominators keeps the denominator positive. -/
theorem Score.add_den_pos {x y : Score} (hx : 0 < x.den) (hy : 0 < y.den) :
    0 < (x.add y).den := mul_pos hx hy

/-- Dividing by a positive count keeps the denominator positive. -/
theorem Score.divN_den_pos {x : Score} {n : Nat} (hx : 0 < x.den) (hn : 0 < n) :
    0 < (x.divN n).den := by
  unfold Score.divN
  dsimp only
  exact mul_pos hx (by exact_mod_cast hn)

/-- Per-example coverage always has a positive denominator (the divisor is a
maximum of token counts, and `split` always returns at least one token). -/
theorem exampleCoverage_den_pos (taskWords : List (List Char)) (ex : String) :
    0 < (SrePromptLoader.exampleCoverage taskWords ex).den := by
  unfold SrePromptLoader.exampleCoverage
  dsimp only
  apply Score.divN_den_pos (by norm_num)
  have h1 := splitBsL_ne_nil (lowerS ex).data
  have h2 : 0 < (splitBsL (lowerS ex).data).length := List.length_pos.mpr h1
  exact lt_of_lt_of_le h2 (le_max_left _ _)

/-- Additive score folds preserve denominator positivity. -/
theorem foldl_addf_den_pos {α : Type} (f : α → Score) (l : List α) :
    ∀ acc : Score, 0 < acc.den → (∀ x ∈ l, 0 < (f x).den) →
      0 < (l.foldl (fun a x => a.add (f x)) acc).den := by
  induction l with
  | nil =>
    intro acc hacc _
    simpa
  | cons x t ih =>
    intro acc hacc hf
    rw [List.foldl_cons]
    exact ih _ (Score.add_den_pos hacc (hf x (List.mem_cons_self _ _)))
      fun z hz => hf z (List.mem_cons_of_mem _ hz)

/-- The tag-bonus fold preserves denominator positivity. -/
theorem foldl_halfadd_den_pos {α : Type} (p : α → Bool) (l : List α) :
    ∀ acc : Score, 0 < acc.den →
      0 < (l.foldl (fun a x => if p x then a.add { num := 1, den := 2 } else a) acc).den := by
  induction l with
  | nil =>
    intro acc hacc
    simpa
  | cons x t ih =>
    intro acc hacc
    rw [List.foldl_cons]
    by_cases hp : p x
    · rw [if_pos hp]
      exact ih _ (Score.add_den_pos hacc (by norm_num))
    · rw [if_neg hp]
      exact ih _ hacc

/-- Every similarity score has a positive denominator. -/
theorem score_den_pos (ctx : SreTaskContext) (t : PromptTemplate) :
    0 < (SrePromptLoader.calculateSimilarityScore ctx t).den := by
  unfold SrePromptLoader.calculateSimilarityScore
  dsimp only
  split
  · next hcount =>
    apply Score.divN_den_pos _ hcount
    apply foldl_halfadd_den_pos
    apply foldl_addf_den_pos
    · norm_num [Score.ofNat]
    · intro x _
      exact exampleCoverage_den_pos _ _
  · norm_num [Score.ofNat]

/-- Additive score folds compute the rational sum. -/
theorem foldl_addf_toRat {α : Type} (f : α → Score) (l : List α) :
    ∀ acc : Score, 0 < acc.den → (∀ x ∈ l, 0 < (f x).den) →
      (l.foldl (fun a x => a.add (f x)) acc).toRat =
        l.foldl (fun a x => a + (f x).toRat) acc.toRat := by
  induction l with
  | nil =>
    intro acc _ _
    rfl
  | cons x t ih =>
    intro acc hacc hf
    rw [List.foldl_cons, List.foldl_cons]
    rw [ih _ (Score.add_den_pos hacc (hf x (List.mem_cons_self _ _)))
      fun z hz => hf z (List.mem_cons_of_mem _ hz)]
    rw [Score.toRat_add _ _ (ne_of_gt hacc) (ne_of_gt (hf x (List.mem_cons_self _ _)))]

/-- The strict-improvement scan of `findBestMatchingTemplate`: either nothing
beat the incoming accumulator, or the result is the earliest element of the
list attaining the (strictly positive improvement) maximum. -/
theorem selectLoop_cases (sc : PromptTemplate → Score) (l : List PromptTemplate)
    (b : Option PromptTemplate) (s : Score)
    (hs : 0 < s.den) (hl : ∀ t ∈ l, 0 < (sc t).den) :
    (SrePromptLoader.selectLoop sc l b s = (b, s) ∧
      ∀ t ∈ l, (sc t).toRat ≤ s.toRat) ∨
    (∃ l1 t l2, l = l1 ++ t :: l2 ∧
      SrePromptLoader.selectLoop sc l b s = (some t, sc t) ∧
      s.toRat < (sc t).toRat ∧ (∀ u ∈ l1, (sc u).toRat < (sc t).toRat) ∧
      (∀ u ∈ l2, (sc u).toRat ≤ (sc t).toRat)) := by
  induction l generalizing b s with
  | nil => exact Or.inl ⟨rfl, by simp⟩
  | cons t ts ih =>
    have htden : 0 < (sc t).den := hl t (List.mem_cons_self _ _)
    have hts : ∀ u ∈ ts, 0 < (sc u).den := fun u hu => hl u (List.mem_cons_of_mem _ hu)
    by_cases hgt : s < sc t
    · have hgt2 : s.toRat < (sc t).toRat := (Score.lt_iff _ _ hs htden).mp hgt
      rw [SrePromptLoader.selectLoop, if_pos hgt]
      rcases ih (some t) (sc t) htden hts with ⟨heq, hall⟩ | ⟨l1, u, l2, hsplit, heq, hlt, hl1, hl2⟩
      · refine Or.inr ⟨[], t, ts, by simp, heq, hgt2, by simp, hall⟩
      · refine Or.inr ⟨t :: l1, u, l2, by rw [hsplit, List.cons_append], heq,
          lt_trans hgt2 hlt, ?_, hl2⟩
        intro v hv
        rcases List.mem_cons.mp hv with rfl | hv2
        · exact hlt
        · exact hl1 v hv2
    · have hle : (sc t).toRat ≤ s.toRat :=
        le_of_not_lt fun hc => hgt ((Score.lt_iff _ _ hs htden).mpr hc)
      rw [SrePromptLoader.selectLoop, if_neg hgt]
      rcases ih b s hs hts with ⟨heq, hall⟩ | ⟨l1, u, l2, hsplit, heq, hlt, hl1, hl2⟩
      · refine Or.inl ⟨heq, ?_⟩
        intro v hv
        rcases List.mem_cons.mp hv with rfl | hv2
        · exact hle
        · exact hall v hv2
      · refine Or.inr ⟨t :: l1, u, l2, by rw [hsplit, List.cons_append], heq, hlt, ?_, hl2⟩
        intro v hv
        rcases List.mem_cons.mp hv with rfl | hv2
        · exact lt_of_le_of_lt hle hlt
        · exact hl1 v hv2

/-- `find?` over a split list whose left part all fails the test. -/
theorem find?_append_cons {α : Type} (p : α → Bool) (l1 l2 : List α) (x : α)
    (h1 : ∀ y ∈ l1, p y = false) (hx : p x = true) :
    (l1 ++ x :: l2).find? p = some x := by
  induction l1 with
  | nil => simp [List.find?, hx]
  | cons y t ih =>
    have hy : p y = false := h1 y (List.mem_cons_self _ _)
    simp only [List.cons_append, List.find?, hy]
    exact ih fun z hz => h1 z (List.mem_cons_of_mem _ hz)

/-- `dropWhile` keeps something when some element fails the predicate. -/
theorem dropWhile_ne_nil_of_exists (p : Char → Bool) (l : List Char)
    (h : ∃ c ∈ l, p c = false) : l.dropWhile p ≠ [] := by
  induction l with
  | nil => simp at h
  | cons a t ih =>
    rw [List.dropWhile_cons]
    by_cases hp : p a
    · simp only [hp, if_true]
      rcases h with ⟨c, hc, hcp⟩
      rcases List.mem_cons.mp hc with rfl | hc'
      · rw [hp] at hcp; cases hcp
      · exact ih ⟨c, hc', hcp⟩
    · simp [hp]

/-- The head surviving `dropWhile` fails the predicate. -/
theorem head_dropWhile_false (p : Char → Bool) (l : List Char) (c : Char) (t : List Char)
    (h : l.dropWhile p = c :: t) : p c = false := by
  induction l with
  | nil => simp at h
  | cons a b ih =>
    rw [List.dropWhile_cons] at h
    by_cases hp : p a
    · rw [if_pos hp] at h; exact ih h
    · rw [if_neg hp] at h
      cases h
      simpa using hp

/-- A nonempty trim result contains a non-whitespace character. -/
theorem exists_nonws_of_trimL_ne_nil (l : List Char) (h : trimL l ≠ []) :
    ∃ c ∈ trimL l, wsChar c = false := by
  have h' : (l.dropWhile wsChar).reverse.dropWhile wsChar ≠ [] := by
    intro he
    apply h
    unfold trimL
    rw [he]
    rfl
  obtain ⟨c, t, hd⟩ := List.exists_cons_of_ne_nil h'
  refine ⟨c, ?_, head_dropWhile_false _ _ _ _ hd⟩
  unfold trimL
  rw [hd]
  exact List.mem_reverse.mpr (List.mem_cons_self _ _)

/-- Trimming keeps something when the list has a non-whitespace character. -/
theorem trimL_ne_nil_of_exists (l : List Char) (h : ∃ c ∈ l, wsChar c = false) :
    trimL l ≠ [] := by
  have h1 : l.dropWhile wsChar ≠ [] := dropWhile_ne_nil_of_exists _ _ h
  obtain ⟨c, t, hd⟩ := List.exists_cons_of_ne_nil h1
  have hc : wsChar c = false := head_dropWhile_false _ _ _ _ hd
  have hmem : c ∈ (l.dropWhile wsChar).reverse := by
    rw [hd]; exact List.mem_reverse.mpr (List.mem_cons_self _ _)
  have h2 : (l.dropWhile wsChar).reverse.dropWhile wsChar ≠ [] :=
    dropWhile_ne_nil_of_exists _ _ ⟨c, hmem, hc⟩
  unfold trimL
  intro he
  exact h2 (List.reverse_eq_nil_iff.mp he)

/-- One `parseTemplateSection` loop iteration either leaves the prompt
accumulator unchanged or appends one nonempty trimmed line plus a newline. -/
theorem processLine_prompt_cases (st : SrePromptLoader.SectionState) (raw : String) :
    (SrePromptLoader.processLine st raw).prompt = st.prompt ∨
    (trimS raw ≠ "" ∧
      (SrePromptLoader.processLine st raw).prompt = st.prompt ++ trimS raw ++ "\\n") := by
  unfold SrePromptLoader.processLine
  dsimp only
  repeat' split
  all_goals
    first
    | exact Or.inl rfl
    | (rename_i hsec hne
       right
       refine ⟨?_, rfl⟩
       have h3 := (Bool.and_eq_true _ _).mp hsec
       simpa using h3.2)

/-- The prompt accumulator of the section loop is empty or contains a
non-whitespace character, for any starting state with that property. -/
theorem foldl_processLine_prompt_ok (lines : List String) (st : SrePromptLoader.SectionState)
    (h : st.prompt = "" ∨ ∃ c ∈ st.prompt.data, wsChar c = false) :
    (lines.foldl SrePromptLoader.processLine st).prompt = "" ∨
      ∃ c ∈ (lines.foldl SrePromptLoader.processLine st).prompt.data, wsChar c = false := by
  induction lines generalizing st with
  | nil => simpa
  | cons raw rest ih =>
    rw [List.foldl_cons]
    apply ih
    rcases processLine_prompt_cases st raw with heq | ⟨hne, heq⟩
    · rw [heq]; exact h
    · rw [heq]
      right
      have hdata : (trimS raw).data ≠ [] := (ne_empty_iff_data _).mp hne
      have : trimL raw.data ≠ [] := hdata
      rcases exists_nonws_of_trimL_ne_nil raw.data this with ⟨c, hc, hcws⟩
      refine ⟨c, ?_, hcws⟩
      rw [data_append, data_append]
      exact List.mem_append_left _ (List.mem_append_right _ hc)

/-- An example textually identical to the task text gets coverage exactly one:
every one of its words matches itself bidirectionally, and the two token
lists have equal (positive) length. -/
theorem exampleCoverage_self (s : String) :
    (SrePromptLoader.exampleCoverage (splitBsL (lowerS s).data) s).toRat = 1 := by
  unfold SrePromptLoader.exampleCoverage
  have hcount : (splitBsL (lowerS s).data).countP
      (fun w => (splitBsL (lowerS s).data).any fun tw => containsL tw w || containsL w tw) =
      (splitBsL (lowerS s).data).length := by
    rw [List.countP_eq_length]
    intro w hw
    exact List.any_eq_true.mpr ⟨w, hw, by simp [containsL_self]⟩
  dsimp only
  rw [hcount, max_self, Score.toRat_divN]
  unfold Score.toRat
  dsimp only
  push_cast
  rw [div_one]
  have hlen : ((splitBsL (lowerS s).data).length : ℚ) ≠ 0 := by
    have h1 := splitBsL_ne_nil (lowerS s).data
    have h2 : (splitBsL (lowerS s).data).length ≠ 0 := by
      simpa [List.length_eq_zero] using h1
    exact_mod_cast h2
  exact div_self hlen

/-- Score of a template whose sole example is the task text and whose tag
list is empty: exactly one. -/
theorem score_identical (ctx : SreTaskContext) (t : PromptTemplate)
    (hex : t.examples = [ctx.rawInput ++ " " ++ ctx.target]) (htags : t.tags = []) :
    (SrePromptLoader.calculateSimilarityScore ctx t).toRat = 1 := by
  unfold SrePromptLoader.calculateSimilarityScore
  dsimp only
  rw [hex, htags]
  simp only [List.foldl_cons, List.foldl_nil, List.length_cons, List.length_nil]
  rw [if_pos (by norm_num)]
  rw [Score.toRat_divN]
  rw [Score.toRat_add _ _ (by norm_num [Score.ofNat])
    (ne_of_gt (exampleCoverage_den_pos _ _))]
  rw [Score.toRat_ofNat, exampleCoverage_self]
  norm_num

/-- Score of a tag-free template all of whose examples have coverage below
one: strictly below one. -/
theorem score_lt_one (ctx : SreTaskContext) (t : PromptTemplate)
    (htags : t.tags = []) (hne : t.examples ≠ [])
    (h : ∀ ex ∈ t.examples,
      SrePromptLoader.exampleCoverage
          (splitBsL (lowerS (ctx.rawInput ++ " " ++ ctx.target)).data) ex <
        Score.ofNat 1) :
    (SrePromptLoader.calculateSimilarityScore ctx t).toRat < 1 := by
  have h2 : ∀ ex ∈ t.examples,
      (SrePromptLoader.exampleCoverage
        (splitBsL (lowerS (ctx.rawInput ++ " " ++ ctx.target)).data) ex).toRat < 1 := by
    intro ex hx
    have h3 := (Score.lt_iff _ _ (exampleCoverage_den_pos _ _)
      (by norm_num [Score.ofNat])).mp (h ex hx)
    rw [Score.toRat_ofNat] at h3
    exact_mod_cast h3
  unfold SrePromptLoader.calculateSimilarityScore
  dsimp only
  rw [htags]
  simp only [List.foldl_nil]
  rw [if_pos (List.length_pos.mpr hne)]
  rw [Score.toRat_divN]
  rw [foldl_addf_toRat _ _ _ (by norm_num [Score.ofNat])
    fun x _ => exampleCoverage_den_pos _ _]
  rw [Score.toRat_ofNat]
  rw [div_lt_one (by exact_mod_cast List.length_pos.mpr hne)]
  have := foldl_add_lt_length
    (fun ex => (SrePromptLoader.exampleCoverage
      (splitBsL (lowerS (ctx.rawInput ++ " " ++ ctx.target)).data) ex).toRat)
    t.examples hne h2
  simpa using this

/-- A substring of the initial accumulator survives the Additional Context
entry fold of `buildPromptFromTemplate`. -/
theorem containsS_params_foldl (l : List (String × String)) (init pat : String)
    (h : containsS init pat = true) :
    containsS (l.foldl (fun acc kv => acc ++ "- " ++ kv.1 ++ ": " ++ kv.2 ++ "\\n") init) pat
      = true := by
  induction l generalizing init with
  | nil => simpa
  | cons kv rest ih =>
    rw [List.foldl_cons]
    apply ih
    unfold containsS
    rw [data_append]
    apply containsL_append_left
    rw [data_append]
    apply containsL_append_left
    rw [data_append]
    apply containsL_append_left
    rw [data_append]
    apply containsL_append_left
    rw [data_append]
    apply containsL_append_left
    exact h

/-- Every template emitted by `parseTemplateSection` has at least one example
and a nonempty (trimmed) prompt body, because of its final guard and because
prompt lines are accumulated only when nonblank. -/
theorem parseTemplateSection_inv (sec : String) (t : PromptTemplate)
    (h : SrePromptLoader.parseTemplateSection sec = some t) :
    t.examples ≠ [] ∧ t.prompt ≠ "" := by
  unfold SrePromptLoader.parseTemplateSection at h
  dsimp only at h
  rcases hf : SrePromptLoader.findHeaderCmd (trimS ((splitNlS sec).headD "")) with _ | cmd
  · rw [hf] at h
    cases h
  · rw [hf] at h
    dsimp only at h
    split at h
    · next hguard =>
      rcases Bool.and_eq_true _ _ |>.mp hguard with ⟨hlen, hprompt⟩
      cases h
      constructor
      · have : 0 < (((splitNlS sec).drop 1).foldl SrePromptLoader.processLine
            { currentSection := "", examples := [], tags := [], prompt := "" }).examples.length := by
          simpa using hlen
        exact List.length_pos.mp this
      · have hne : (((splitNlS sec).drop 1).foldl SrePromptLoader.processLine
            { currentSection := "", examples := [], tags := [], prompt := "" }).prompt ≠ "" := by
          simpa using hprompt
        have hinv := foldl_processLine_prompt_ok ((splitNlS sec).drop 1)
          { currentSection := "", examples := [], tags := [], prompt := "" } (Or.inl rfl)
        rcases hinv with heq | ⟨c, hc, hcws⟩
        · exact absurd heq hne
        · rw [ne_empty_iff_data]
          exact trimL_ne_nil_of_exists _ ⟨c, hc, hcws⟩
    · cases h

/-- C3: the two risk-assessment formulas disagree on a common descriptor.
For the descriptor parsed fields environment = staging with no urgency, the
plan synthesizer's `SreTaskParser.assessRisk` answers `low` while the chat
surface's `SreBuddyChatParticipant.assessRisk` answers MEDIUM (rendered
`🟡 MEDIUM`), so the environment/urgency-based and the
environment/target-keyword-based formulas yield different risk levels. -/
theorem c3_risk_formulas_disagree :
    SreTaskParser.assessRisk
        { type := .implement, target := "app", parameters := [], environment := some "staging",
          urgency := none, rawInput := "implement app in staging" } = "low" ∧
    SreBuddyChatParticipant.chatRiskLevel
        { type := .implement, target := "app", parameters := [], environment := some "staging",
          urgency := none, rawInput := "implement app in staging" } = "MEDIUM" ∧
    SreBuddyChatParticipant.assessRisk
        { type := .implement, target := "app", parameters := [], environment := some "staging",
          urgency := none, rawInput := "implement app in staging" } = "🟡 MEDIUM" ∧
    (⟨lowerL "MEDIUM".data⟩ : String) ≠ "low" := by decide

/-- C8: for every task descriptor whose environment is production,
`generateImplementationPlan` returns a plan with riskLevel high whose
prerequisites include the change-management-approval item and backup
verification. -/
theorem c8_production_plan (ctx : SreTaskContext) (h : ctx.environment = some "production") :
    (SreTaskParser.generateImplementationPlan ctx).riskLevel = "high" ∧
    "Change management approval" ∈ (SreTaskParser.generateImplementationPlan ctx).prerequisites ∧
    "Backup verification" ∈ (SreTaskParser.generateImplementationPlan ctx).prerequisites := by
  unfold SreTaskParser.generateImplementationPlan SreTaskParser.assessRisk
    SreTaskParser.generatePrerequisites
  refine ⟨?_, ?_, ?_⟩
  · dsimp only
    rw [if_pos h]
  · dsimp only
    rw [if_pos h]
    simp
  · dsimp only
    rw [if_pos h]
    simp

/-- Witness for C8 at a concrete production descriptor. -/
theorem c8_production_plan_witness :
    (SreTaskParser.generateImplementationPlan
        { type := .implement, target := "redis", parameters := [], environment := some "production",
          urgency := none, rawInput := "implement redis in production" }).riskLevel = "high" ∧
    "Change management approval" ∈ (SreTaskParser.generateImplementationPlan
        { type := .implement, target := "redis", parameters := [], environment := some "production",
          urgency := none, rawInput := "implement redis in production" }).prerequisites ∧
    "Backup verification" ∈ (SreTaskParser.generateImplementationPlan
        { type := .implement, target := "redis", parameters := [], environment := some "production",
          urgency := none, rawInput := "implement redis in production" }).prerequisites :=
  c8_production_plan _ (by decide)

/-- C10: `estimateTime` only ever returns one of the three strings
`1-2 hours`, `4-8 hours`, `1-2 days`; its fourth `2-4 hours` branch is
unreachable because `assessComplexity` always returns `low`, `medium` or
`high`. -/
theorem c10_estimate_range (ctx : SreTaskContext) :
    SreTaskParser.estimateTime ctx = "1-2 hours" ∨
    SreTaskParser.estimateTime ctx = "4-8 hours" ∨
    SreTaskParser.estimateTime ctx = "1-2 days" := by
  have h : SreTaskParser.assessComplexity ctx = "high" ∨
      SreTaskParser.assessComplexity ctx = "medium" ∨
      SreTaskParser.assessComplexity ctx = "low" := by
    unfold SreTaskParser.assessComplexity
    dsimp only
    split
    · exact Or.inl rfl
    · split
      · exact Or.inr (Or.inl rfl)
      · exact Or.inr (Or.inr rfl)
  unfold SreTaskParser.estimateTime
  rcases h with h | h | h <;> rw [h] <;> simp

/-- C1 (amended): only the matched-template composition branch appends the
Additional Context section.  For every template and every descriptor with a
non-empty parameters map, `buildPromptFromTemplate` output contains
`Additional Context`, and that output is exactly the parameter-free prompt
followed by the Additional Context block built by folding the parameter
entries in extraction order (the source string literals are double-escaped,
so the section header and the per-entry terminators use a literal
backslash-n, not a newline); the static-fallback and generic branches ignore
the parameters map entirely (their output is invariant under replacing it). -/
theorem c1_amended :
    (∀ (tmpl : PromptTemplate) (ctx : SreTaskContext), ctx.parameters ≠ [] →
      containsS (SrePromptLoader.buildPromptFromTemplate tmpl ctx) "Additional Context" = true) ∧
    (∀ (tmpl : PromptTemplate) (ctx : SreTaskContext), ctx.parameters ≠ [] →
      SrePromptLoader.buildPromptFromTemplate tmpl ctx =
        SrePromptLoader.buildPromptFromTemplate tmpl { ctx with parameters := [] } ++
          ctx.parameters.foldl
            (fun acc kv => acc ++ "- " ++ kv.1 ++ ": " ++ kv.2 ++ "\\n")
            "\\nAdditional Context:\\n") ∧
    (∀ (body : String) (ctx : SreTaskContext) (ps : List (String × String)),
      SrePromptLoader.buildPromptFromFallback body { ctx with parameters := ps } =
        SrePromptLoader.buildPromptFromFallback body ctx) ∧
    (∀ (ctx : SreTaskContext) (cmd : String) (ps : List (String × String)),
      SrePromptLoader.buildGenericPrompt { ctx with parameters := ps } cmd =
        SrePromptLoader.buildGenericPrompt ctx cmd) := by
  refine ⟨?_, ?_, fun _ _ _ => rfl, fun _ _ _ => rfl⟩
  · intro tmpl ctx hne
    unfold SrePromptLoader.buildPromptFromTemplate
    dsimp only
    rw [if_pos (List.length_pos.mpr hne)]
    unfold containsS
    rw [data_append]
    apply containsL_append_right
    exact containsS_params_foldl ctx.parameters "\\nAdditional Context:\\n" "Additional Context"
      (by decide)
  · intro tmpl ctx hne
    unfold SrePromptLoader.buildPromptFromTemplate
    dsimp only
    rw [if_pos (List.length_pos.mpr hne), if_neg (by decide)]

/-- Witness for C1 (amended) at a concrete matched template and parameters:
the containment half and the extraction-order block-equality half are both
instantiated. -/
theorem c1_amended_witness :
    (containsS
      (SrePromptLoader.buildPromptFromTemplate
        { command := "implement", examples := ["set up redis"], prompt := "Install {target} now.",
          tags := [] }
        { type := .implement, target := "redis", parameters := [("version", "7.2")],
          environment := none, urgency := none, rawInput := "implement redis v7.2" })
      "Additional Context" = true) ∧
    SrePromptLoader.buildPromptFromTemplate
        { command := "implement", examples := ["set up redis"], prompt := "Install {target} now.",
          tags := [] }
        { type := .implement, target := "redis", parameters := [("version", "7.2")],
          environment := none, urgency := none, rawInput := "implement redis v7.2" } =
      SrePromptLoader.buildPromptFromTemplate
        { command := "implement", examples := ["set up redis"], prompt := "Install {target} now.",
          tags := [] }
        { type := .implement, target := "redis", parameters := [],
          environment := none, urgency := none, rawInput := "implement redis v7.2" } ++
        ([("version", "7.2")] : List (String × String)).foldl
          (fun acc kv => acc ++ "- " ++ kv.1 ++ ": " ++ kv.2 ++ "\\n")
          "\\nAdditional Context:\\n" :=
  ⟨c1_amended.1 _ _ (by decide), c1_amended.2.1 _ _ (by decide)⟩

set_option maxRecDepth 400000 in
/-- C1 counterexample: with a non-empty parameters map, the static-fallback
branch of composition (no template matched, fallback body exists for
`implement`) and the generic branch produce prompts with no
`Additional Context` section, refuting the claim that every branch appends
it. -/
theorem c1_counterexample :
    ([("version", "1.2")] :
      List (String × String)) ≠ [] ∧
    SrePromptLoader.getPromptForTask []
        { type := .implement, target := "redis", parameters := [("version", "1.2")],
          environment := none, urgency := none, rawInput := "implement redis" } "implement" =
      SrePromptLoader.buildPromptFromFallback SrePromptLoader.implementFallback
        { type := .implement, target := "redis", parameters := [("version", "1.2")],
          environment := none, urgency := none, rawInput := "implement redis" } ∧
    containsS
      (SrePromptLoader.getPromptForTask []
        { type := .implement, target := "redis", parameters := [("version", "1.2")],
          environment := none, urgency := none, rawInput := "implement redis" } "implement")
      "Additional Context" = false ∧
    containsS
      (SrePromptLoader.getPromptForTask []
        { type := .implement, target := "redis", parameters := [("version", "1.2")],
          environment := none, urgency := none, rawInput := "implement redis" } "nosuchcommand")
      "Additional Context" = false := by decide

set_option maxRecDepth 400000 in
/-- C2 (amended): the static-fallback branch substitutes only `{target}`,
`{environment}` and `{rawInput}` — never `{type}`, so its output does not
depend on the descriptor type — and it replaces only the first occurrence of
each placeholder in the fallback body, as the concrete body with repeated
placeholders shows. -/
theorem c2_amended :
    (∀ (body : String) (ctx : SreTaskContext) (ty : SreTaskType),
      SrePromptLoader.buildPromptFromFallback body { ctx with type := ty } =
        SrePromptLoader.buildPromptFromFallback body ctx) ∧
    SrePromptLoader.buildPromptFromFallback
        "A {target} B {target} C {environment} D {environment} E {rawInput} F {type}"
        { type := .implement, target := "web", parameters := [], environment := some "staging",
          urgency := none, rawInput := "hello" } =
      "A web B {target} C staging D {environment} E hello F {type}" :=
  ⟨fun _ _ _ => rfl, by decide⟩

set_option maxRecDepth 400000 in
/-- C2 counterexample: on the static-fallback branch for `implement` (no
template matched, the fallback body exists), the composer does not replace
every occurrence of the four placeholders: with a descriptor whose target is
the literal text `{environment}`, the `{environment}` occurrence written in
the fallback body survives into the output (the single first-occurrence
replacement is spent on the injected text), and the output differs from the
claimed four-placeholder global substitution. -/
theorem c2_counterexample :
    SrePromptLoader.getPromptForTask []
        { type := .implement, target := "{environment}", parameters := [], environment := none,
          urgency := none, rawInput := "x" } "implement" =
      SrePromptLoader.buildPromptFromFallback SrePromptLoader.implementFallback
        { type := .implement, target := "{environment}", parameters := [], environment := none,
          urgency := none, rawInput := "x" } ∧
    containsS SrePromptLoader.implementFallback "{environment}" = true ∧
    containsS
      (SrePromptLoader.buildPromptFromFallback SrePromptLoader.implementFallback
        { type := .implement, target := "{environment}", parameters := [], environment := none,
          urgency := none, rawInput := "x" })
      "{environment}" = true ∧
    SrePromptLoader.buildPromptFromFallback SrePromptLoader.implementFallback
        { type := .implement, target := "{environment}", parameters := [], environment := none,
          urgency := none, rawInput := "x" } ≠
      SpecSide.fallbackSubstFour SrePromptLoader.implementFallback
        { type := .implement, target := "{environment}", parameters := [], environment := none,
          urgency := none, rawInput := "x" } ∧
    containsS
      (SpecSide.fallbackSubstFour SrePromptLoader.implementFallback
        { type := .implement, target := "{environment}", parameters := [], environment := none,
          urgency := none, rawInput := "x" })
      "{environment}" = false := by decide

/-- C4 (amended): template selection filters on exact, case-sensitive command
equality (since parsed commands are lower-cased, this coincides with
case-insensitive matching exactly when the requested command is lowercase);
among the filtered candidates the strictly highest-scoring one is returned
with ties broken in favour of the earliest, none is returned when the best
score does not exceed 0.3, and a returned template's command always equals
the requested command. -/
theorem c4_amended (templates : List PromptTemplate) (ctx : SreTaskContext) (command : String) :
    match SrePromptLoader.findBestMatchingTemplate templates ctx command with
    | none => ∀ t ∈ templates.filter (fun t => t.command = command),
        (SrePromptLoader.calculateSimilarityScore ctx t).toRat ≤ 3 / 10
    | some t =>
        t.command = command ∧
        3 / 10 < (SrePromptLoader.calculateSimilarityScore ctx t).toRat ∧
        ∃ l1 l2, templates.filter (fun t => t.command = command) = l1 ++ t :: l2 ∧
          (∀ u ∈ l1, (SrePromptLoader.calculateSimilarityScore ctx u).toRat <
            (SrePromptLoader.calculateSimilarityScore ctx t).toRat) ∧
          (∀ u ∈ l2, (SrePromptLoader.calculateSimilarityScore ctx u).toRat ≤
            (SrePromptLoader.calculateSimilarityScore ctx t).toRat) := by
  have hthr : ({ num := 3, den := 10 } : Score).toRat = 3 / 10 := by
    unfold Score.toRat
    norm_num
  have hzero : (Score.ofNat 0).toRat = 0 := by
    rw [Score.toRat_ofNat]
    norm_num
  rcases hres : SrePromptLoader.findBestMatchingTemplate templates ctx command with _ | t
  · unfold SrePromptLoader.findBestMatchingTemplate at hres
    dsimp only at hres
    by_cases hempty : (templates.filter (fun t => t.command = command)).isEmpty
    · intro t ht
      rw [List.isEmpty_iff] at hempty
      rw [hempty] at ht
      cases ht
    · rw [if_neg hempty] at hres
      rcases selectLoop_cases (SrePromptLoader.calculateSimilarityScore ctx)
          (templates.filter (fun t => t.command = command)) none (Score.ofNat 0)
          (by norm_num [Score.ofNat]) (fun u _ => score_den_pos ctx u) with
        ⟨heq, hall⟩ | ⟨l1, u, l2, hsplit, heq, hpos, hl1, hl2⟩
      · intro t ht
        have h1 := hall t ht
        rw [hzero] at h1
        linarith
      · rw [heq] at hres
        dsimp only at hres
        by_cases hth : SrePromptLoader.calculateSimilarityScore ctx u >
            ({ num := 3, den := 10 } : Score)
        · rw [if_pos hth] at hres
          cases hres
        · rw [if_neg hth] at hres
          have hth2 : (SrePromptLoader.calculateSimilarityScore ctx u).toRat ≤ 3 / 10 := by
            by_contra hcon
            push_neg at hcon
            apply hth
            refine (Score.lt_iff _ _ (by norm_num) (score_den_pos ctx u)).mpr ?_
            rw [hthr]
            exact hcon
          intro t ht
          rw [hsplit] at ht
          rcases List.mem_append.mp ht with htl | htr
          · exact le_trans (le_of_lt (hl1 t htl)) hth2
          · rcases List.mem_cons.mp htr with rfl | htl2
            · exact hth2
            · exact le_trans (hl2 t htl2) hth2
  · unfold SrePromptLoader.findBestMatchingTemplate at hres
    dsimp only at hres
    by_cases hempty : (templates.filter (fun t => t.command = command)).isEmpty
    · rw [if_pos hempty] at hres
      cases hres
    · rw [if_neg hempty] at hres
      rcases selectLoop_cases (SrePromptLoader.calculateSimilarityScore ctx)
          (templates.filter (fun t => t.command = command)) none (Score.ofNat 0)
          (by norm_num [Score.ofNat]) (fun u _ => score_den_pos ctx u) with
        ⟨heq, hall⟩ | ⟨l1, u, l2, hsplit, heq, hpos, hl1, hl2⟩
      · rw [heq] at hres
        dsimp only at hres
        rw [if_neg (by decide)] at hres
        cases hres
      · rw [heq] at hres
        dsimp only at hres
        by_cases hth : SrePromptLoader.calculateSimilarityScore ctx u >
            ({ num := 3, den := 10 } : Score)
        · rw [if_pos hth] at hres
          cases hres
          have hmem : t ∈ templates.filter (fun t => t.command = command) := by
            rw [hsplit]
            exact List.mem_append_right _ (List.mem_cons_self _ _)
          have hth2 : 3 / 10 < (SrePromptLoader.calculateSimilarityScore ctx t).toRat := by
            have h5 := (Score.lt_iff ({ num := 3, den := 10 } : Score)
              (SrePromptLoader.calculateSimilarityScore ctx t)
              (by norm_num) (score_den_pos ctx t)).mp hth
            rwa [hthr] at h5
          refine ⟨?_, hth2, l1, l2, hsplit, hl1, hl2⟩
          exact of_decide_eq_true (List.mem_filter.mp hmem).2
        · rw [if_neg hth] at hres
          cases hres

set_option maxRecDepth 400000 in
/-- C4 counterexample: the selection filter is case-sensitive, not
case-insensitive.  The double-escaped header regex only accepts commands of
the literal form backslash-`w` run, so the corpus template's stored command
is `\w`; for the requested command `\W` (equal up to case) the template
scores 1 > 0.3 for the descriptor — whole-string containment coverage —
yet `findBestMatchingTemplate` returns none, while the claim-side
case-insensitive selection returns the template. -/
theorem c4_counterexample :
    SrePromptLoader.parsePromptTemplates
        "## SRE \\w Prompts\n\n### Examples\n- deploy app now\n\n### Prompt\nDo the thing\n" =
      [{ command := "\\w", examples := ["deploy app now"], prompt := "Do the thing\\n", tags := [] }] ∧
    lowerS "\\W" = "\\w" ∧
    Score.eqv
      (SrePromptLoader.calculateSimilarityScore
        { type := .deploy, target := "app", parameters := [], environment := none,
          urgency := none, rawInput := "deploy app now" }
        { command := "\\w", examples := ["deploy app now"], prompt := "Do the thing\\n", tags := [] })
      { num := 1, den := 1 } ∧
    ({ num := 3, den := 10 } : Score) <
      SrePromptLoader.calculateSimilarityScore
        { type := .deploy, target := "app", parameters := [], environment := none,
          urgency := none, rawInput := "deploy app now" }
        { command := "\\w", examples := ["deploy app now"], prompt := "Do the thing\\n", tags := [] } ∧
    SrePromptLoader.findBestMatchingTemplate
        (SrePromptLoader.parsePromptTemplates
          "## SRE \\w Prompts\n\n### Examples\n- deploy app now\n\n### Prompt\nDo the thing\n")
        { type := .deploy, target := "app", parameters := [], environment := none,
          urgency := none, rawInput := "deploy app now" }
        "\\W" = none ∧
    SpecSide.selectTemplateCI
        (SrePromptLoader.parsePromptTemplates
          "## SRE \\w Prompts\n\n### Examples\n- deploy app now\n\n### Prompt\nDo the thing\n")
        { type := .deploy, target := "app", parameters := [], environment := none,
          urgency := none, rawInput := "deploy app now" }
        "\\W" =
      some { command := "\\w", examples := ["deploy app now"], prompt := "Do the thing\\n", tags := [] } := by decide

/-- C5 (amended): a template whose sole example is textually identical to the
string `<rawInput> <target>` receives per-example coverage exactly 1.0 and,
when tag bonuses are absent on both sides, it is selected in preference to an
earlier-listed same-command template all of whose examples have coverage
below one (partial token overlap), both being above the 0.3 threshold; a
tag-bonus difference or an equal-scoring earlier template can reverse this
preference. -/
theorem c5_amended (ctx : SreTaskContext) (t1 t2 : PromptTemplate) (c : String)
    (hex : t1.examples = [ctx.rawInput ++ " " ++ ctx.target])
    (ht1 : t1.tags = []) (ht2 : t2.tags = [])
    (hc1 : t1.command = c) (hc2 : t2.command = c)
    (h2ne : t2.examples ≠ [])
    (h2 : ∀ ex ∈ t2.examples,
      SrePromptLoader.exampleCoverage
          (splitBsL (lowerS (ctx.rawInput ++ " " ++ ctx.target)).data) ex <
        Score.ofNat 1) :
    (SrePromptLoader.calculateSimilarityScore ctx t1).toRat = 1 ∧
    SrePromptLoader.findBestMatchingTemplate [t2, t1] ctx c = some t1 := by
  have hs1 : (SrePromptLoader.calculateSimilarityScore ctx t1).toRat = 1 :=
    score_identical ctx t1 hex ht1
  have hs2 : (SrePromptLoader.calculateSimilarityScore ctx t2).toRat < 1 :=
    score_lt_one ctx t2 ht2 h2ne h2
  have h21 : SrePromptLoader.calculateSimilarityScore ctx t2 <
      SrePromptLoader.calculateSimilarityScore ctx t1 :=
    (Score.lt_iff _ _ (score_den_pos ctx t2) (score_den_pos ctx t1)).mpr
      (by rw [hs1]; exact hs2)
  have hth1 : ({ num := 3, den := 10 } : Score) <
      SrePromptLoader.calculateSimilarityScore ctx t1 :=
    (Score.lt_iff _ _ (by norm_num) (score_den_pos ctx t1)).mpr (by
      rw [hs1]
      unfold Score.toRat
      norm_num)
  refine ⟨hs1, ?_⟩
  unfold SrePromptLoader.findBestMatchingTemplate
  have hfilter : ([t2, t1].filter (fun t => t.command = c)) = [t2, t1] := by
    simp [List.filter, hc1, hc2]
  rw [hfilter]
  rw [if_neg (by simp)]
  dsimp only
  rw [SrePromptLoader.selectLoop]
  by_cases hpos : Score.ofNat 0 < SrePromptLoader.calculateSimilarityScore ctx t2
  · rw [if_pos hpos, SrePromptLoader.selectLoop, if_pos h21, SrePromptLoader.selectLoop]
    dsimp only
    rw [if_pos hth1]
  · rw [if_neg hpos, SrePromptLoader.selectLoop,
      if_pos ((Score.lt_iff _ _ (by norm_num [Score.ofNat]) (score_den_pos ctx t1)).mpr (by
        rw [hs1, Score.toRat_ofNat]
        norm_num)),
      SrePromptLoader.selectLoop]
    dsimp only
    rw [if_pos hth1]

set_option maxRecDepth 400000 in
/-- Witness for C5 (amended): the identical-example template is preferred
over an earlier tag-free partial-overlap template. -/
theorem c5_amended_witness :
    (SrePromptLoader.calculateSimilarityScore
        { type := .deploy, target := "nginx", parameters := [], environment := none,
          urgency := none, rawInput := "deploy web app" }
        { command := "implement", examples := ["deploy web app nginx"], prompt := "IDENT",
          tags := [] }).toRat = 1 ∧
    SrePromptLoader.findBestMatchingTemplate
        [ { command := "implement", examples := ["deploy app"], prompt := "PARTIAL", tags := [] }
        , { command := "implement", examples := ["deploy web app nginx"], prompt := "IDENT",
            tags := [] } ]
        { type := .deploy, target := "nginx", parameters := [], environment := none,
          urgency := none, rawInput := "deploy web app" }
        "implement" =
      some { command := "implement", examples := ["deploy web app nginx"], prompt := "IDENT",
             tags := [] } :=
  c5_amended
    { type := .deploy, target := "nginx", parameters := [], environment := none,
      urgency := none, rawInput := "deploy web app" }
    { command := "implement", examples := ["deploy web app nginx"], prompt := "IDENT", tags := [] }
    { command := "implement", examples := ["deploy app"], prompt := "PARTIAL", tags := [] }
    "implement" (by decide) (by decide) (by decide) (by decide) (by decide) (by decide)
    (by decide)

set_option maxRecDepth 400000 in
/-- C5 counterexample: the selection preference claimed for an
identical-example template fails once tag bonuses count.  Under the
double-escaped `split(/\\s+/)` tokenisation every backslash-free text is one
token, so per-example coverage is whole-string containment: against the task
text `deploy web app nginx`, the identical-example tag-free template scores
exactly 1, an earlier partial-overlap template (coverage 0) with three
matching tags scores 3/2, both exceed 0.3, and selection returns the
partial-overlap template, not the identical one. -/
theorem c5_counterexample :
    Score.eqv
      (SrePromptLoader.exampleCoverage
        (splitBsL (lowerS ("deploy web app" ++ " " ++ "nginx")).data) "deploy web app nginx")
      { num := 1, den := 1 } ∧
    Score.eqv
      (SrePromptLoader.exampleCoverage
        (splitBsL (lowerS ("deploy web app" ++ " " ++ "nginx")).data) "deploy app")
      { num := 0, den := 1 } ∧
    Score.eqv
      (SrePromptLoader.calculateSimilarityScore
        { type := .deploy, target := "nginx", parameters := [], environment := none,
          urgency := none, rawInput := "deploy web app" }
        { command := "implement", examples := ["deploy web app nginx"], prompt := "IDENT",
          tags := [] })
      { num := 1, den := 1 } ∧
    Score.eqv
      (SrePromptLoader.calculateSimilarityScore
        { type := .deploy, target := "nginx", parameters := [], environment := none,
          urgency := none, rawInput := "deploy web app" }
        { command := "implement", examples := ["deploy app"], prompt := "PARTIAL",
          tags := ["deploy", "web", "app"] })
      { num := 3, den := 2 } ∧
    ({ num := 3, den := 10 } : Score) <
      SrePromptLoader.calculateSimilarityScore
        { type := .deploy, target := "nginx", parameters := [], environment := none,
          urgency := none, rawInput := "deploy web app" }
        { command := "implement", examples := ["deploy web app nginx"], prompt := "IDENT",
          tags := [] } ∧
    ({ num := 3, den := 10 } : Score) <
      SrePromptLoader.calculateSimilarityScore
        { type := .deploy, target := "nginx", parameters := [], environment := none,
          urgency := none, rawInput := "deploy web app" }
        { command := "implement", examples := ["deploy app"], prompt := "PARTIAL",
          tags := ["deploy", "web", "app"] } ∧
    SrePromptLoader.findBestMatchingTemplate
        [ { command := "implement", examples := ["deploy app"], prompt := "PARTIAL",
            tags := ["deploy", "web", "app"] }
        , { command := "implement", examples := ["deploy web app nginx"], prompt := "IDENT",
            tags := [] } ]
        { type := .deploy, target := "nginx", parameters := [], environment := none,
          urgency := none, rawInput := "deploy web app" }
        "implement" =
      some { command := "implement", examples := ["deploy app"], prompt := "PARTIAL",
             tags := ["deploy", "web", "app"] } ∧
    ({ command := "implement", examples := ["deploy app"], prompt := "PARTIAL",
       tags := ["deploy", "web", "app"] } : PromptTemplate) ≠
      { command := "implement", examples := ["deploy web app nginx"], prompt := "IDENT",
        tags := [] } := by decide

/-- C6: task-type resolution tests the category patterns in the fixed
priority order Monitor, Implement, Configure, Deploy, Docs, Troubleshoot
with first-match-wins (it equals the ordered-list resolution of
`SpecSide.resolveTypeOrdered`); an input matching both the monitor and
implement patterns resolves to Monitor, and an input matching none of the
patterns resolves to Implement. -/
theorem c6_type_resolution (input : String) :
    SreTaskParser.extractTaskType input = SpecSide.resolveTypeOrdered input ∧
    (testPat SreTaskParser.monitorTypePat input = true →
      testPat SreTaskParser.implementTypePat input = true →
      SreTaskParser.extractTaskType input = .monitor) ∧
    ((∀ p ∈ SpecSide.typeOrder, testPat p.1 input = false) →
      SreTaskParser.extractTaskType input = .implement) := by
  refine ⟨?_, ?_, ?_⟩
  · unfold SreTaskParser.extractTaskType SpecSide.resolveTypeOrdered SpecSide.typeOrder
    by_cases h1 : testPat SreTaskParser.monitorTypePat input <;>
    by_cases h2 : testPat SreTaskParser.implementTypePat input <;>
    by_cases h3 : testPat SreTaskParser.configureTypePat input <;>
    by_cases h4 : testPat SreTaskParser.deployTypePat input <;>
    by_cases h5 : testPat SreTaskParser.docsTypePat input <;>
    by_cases h6 : testPat SreTaskParser.troubleshootTypePat input <;>
    simp [List.find?, h1, h2, h3, h4, h5, h6]
  · intro h1 _
    unfold SreTaskParser.extractTaskType
    rw [if_pos h1]
  · intro hall
    have h1 := hall (SreTaskParser.monitorTypePat, SreTaskType.monitor)
      (by simp [SpecSide.typeOrder])
    have h2 := hall (SreTaskParser.implementTypePat, SreTaskType.implement)
      (by simp [SpecSide.typeOrder])
    have h3 := hall (SreTaskParser.configureTypePat, SreTaskType.configure)
      (by simp [SpecSide.typeOrder])
    have h4 := hall (SreTaskParser.deployTypePat, SreTaskType.deploy)
      (by simp [SpecSide.typeOrder])
    have h5 := hall (SreTaskParser.docsTypePat, SreTaskType.docs)
      (by simp [SpecSide.typeOrder])
    have h6 := hall (SreTaskParser.troubleshootTypePat, SreTaskType.troubleshoot)
      (by simp [SpecSide.typeOrder])
    simp only at h1 h2 h3 h4 h5 h6
    unfold SreTaskParser.extractTaskType
    simp [h1, h2, h3, h4, h5, h6]

/-- Witness for C6 at concrete inputs: `install the dashboard` matches both
the monitor and implement patterns and resolves to Monitor; `zzz qqq`
matches no pattern and resolves to Implement. -/
theorem c6_type_resolution_witness :
    SreTaskParser.extractTaskType "install the dashboard" = .monitor ∧
    SreTaskParser.extractTaskType "zzz qqq" = .implement :=
  ⟨(c6_type_resolution "install the dashboard").2.1 (by decide) (by decide),
   (c6_type_resolution "zzz qqq").2.2 (by decide)⟩

/-- C7 (amended): `parseTask` resolves `target` to the canonical name of the
first tool in the fixed pattern order whose pattern matches the lower-cased
input, regardless of case and surrounding words; when several tools'
keywords appear, the earliest pattern in the list wins, not necessarily the
contained keyword's tool. -/
theorem c7_amended (input name : String) (pat : RPat)
    (l1 l2 : List (String × RPat))
    (hsplit : SreTaskParser.toolPatterns = l1 ++ (name, pat) :: l2)
    (hearlier : ∀ q ∈ l1, testPat q.2 (lowerS input) = false)
    (hpat : testPat pat (lowerS input) = true) :
    (SreTaskParser.parseTask input).target = name := by
  show SreTaskParser.extractTarget (lowerS input) = name
  unfold SreTaskParser.extractTarget
  rw [hsplit]
  rw [find?_append_cons (fun p => testPat p.2 (lowerS input)) l1 l2 (name, pat) hearlier hpat]

/-- Witness for C7 (amended): `Install REDIS cache for the team` resolves to
`redis` (mixed case, surrounded by other words, no earlier pattern firing). -/
theorem c7_amended_witness :
    (SreTaskParser.parseTask "Install REDIS cache for the team").target = "redis" :=
  c7_amended "Install REDIS cache for the team" "redis"
    [[lit "redis"], [lit "cache"], [lit "caching"]]
    [ ("dynatrace", [[lit "dynatrace"], [lit "dt", wsp, lit "agent"], [lit "dynatrace", wsp, lit "agent"]])
    , ("datadog", [[lit "datadog"], [lit "dd", wsp, lit "agent"], [lit "datadog", wsp, lit "agent"]])
    , ("prometheus", [[lit "prometheus"], [lit "prom", wsp, lit "monitoring"], [lit "prometheus", wsp, lit "monitoring"]])
    , ("grafana", [[lit "grafana"], [lit "grafana", wsp, lit "dashboard"]])
    , ("kubernetes", [[lit "k8s"], [lit "kubernetes"], [lit "kubectl"], [lit "kube"]])
    , ("docker", [[lit "docker"], [lit "container"], [lit "containerize"]])
    , ("terraform", [[lit "terraform"], [lit "tf", wsp, lit "deploy"], [lit "infrastructure", wsp, lit "as", wsp, lit "code"]])
    , ("ansible", [[lit "ansible"], [lit "playbook"], [lit "automation"]])
    , ("nginx", [[lit "nginx"], [lit "reverse", wsp, lit "proxy"], [lit "load", wsp, lit "balancer"]]) ]
    [ ("elasticsearch", [[lit "elasticsearch"], [lit "elk", wsp, lit "stack"], [lit "elastic"]])
    , ("jenkins", [[lit "jenkins"], [lit "ci/cd"], [lit "pipeline"]]) ]
    (by rfl) (by decide) (by decide)

/-- C7 counterexample: the input `implement redis container` contains the
recognized tool keyword `redis` (the redis pattern matches), yet `parseTask`
resolves the target to `docker`, because the earlier docker pattern matches
the surrounding word `container`; so a recognized keyword does not always
win regardless of surrounding words. -/
theorem c7_counterexample :
    testPat [[lit "redis"], [lit "cache"], [lit "caching"]]
      (lowerS "implement redis container") = true ∧
    ("redis", [[lit "redis"], [lit "cache"], [lit "caching"]]) ∈ SreTaskParser.toolPatterns ∧
    (SreTaskParser.parseTask "implement redis container").target = "docker" ∧
    (SreTaskParser.parseTask "implement redis container").target ≠ "redis" := by decide

/-- C9: corpus parsing is total and locally recovering — it is a pure
function on any input string; the empty and a header-free corpus yield the
empty template sequence; and every emitted template has at least one example
and a nonempty prompt body. -/
theorem c9_parser_total :
    SrePromptLoader.parsePromptTemplates "" = [] ∧
    SrePromptLoader.parsePromptTemplates "not a template corpus\n- bullet\nplain text" = [] ∧
    ∀ (content : String) (t : PromptTemplate),
      t ∈ SrePromptLoader.parsePromptTemplates content → t.examples ≠ [] ∧ t.prompt ≠ "" := by
  refine ⟨by decide, by decide, ?_⟩
  intro content t ht
  unfold SrePromptLoader.parsePromptTemplates at ht
  rcases List.mem_filterMap.mp ht with ⟨sec, _, hparse⟩
  exact parseTemplateSection_inv sec t hparse

/-- Witness for C9 on a concrete corpus (its header carries the
double-escaped command `\w`): the parsed template indeed has an example and
a nonempty prompt. -/
theorem c9_parser_total_witness :
    ({ command := "\\w", examples := ["roll out the service"], prompt := "Ship it now.\\n", tags := [] } : PromptTemplate).examples ≠ [] ∧
    ({ command := "\\w", examples := ["roll out the service"], prompt := "Ship it now.\\n", tags := [] } : PromptTemplate).prompt ≠ "" :=
  c9_parser_total.2.2
    "## SRE \\w Prompts\n\n### Examples\n- roll out the service\n\n### Prompt\nShip it now.\n"
    { command := "\\w", examples := ["roll out the service"], prompt := "Ship it now.\\n", tags := [] }
    (by decide)

/-- Witness for C4 (amended) at a concrete corpus, descriptor and lowercase
command. -/
theorem c4_amended_witness :
    match SrePromptLoader.findBestMatchingTemplate [sampleTemplate] sampleContext "implement" with
    | none => ∀ t ∈ [sampleTemplate].filter (fun t => t.command = "implement"),
        (SrePromptLoader.calculateSimilarityScore sampleContext t).toRat ≤ 3 / 10
    | some t =>
        t.command = "implement" ∧
        3 / 10 < (SrePromptLoader.calculateSimilarityScore sampleContext t).toRat ∧
        ∃ l1 l2, [sampleTemplate].filter (fun t => t.command = "implement") = l1 ++ t :: l2 ∧
          (∀ u ∈ l1, (SrePromptLoader.calculateSimilarityScore sampleContext u).toRat <
            (SrePromptLoader.calculateSimilarityScore sampleContext t).toRat) ∧
          (∀ u ∈ l2, (SrePromptLoader.calculateSimilarityScore sampleContext u).toRat ≤
            (SrePromptLoader.calculateSimilarityScore sampleContext t).toRat) :=
  c4_amended [sampleTemplate] sampleContext "implement"
